import Mathlib

/-!
# Verification of `lni/log`: the structured-logging facade over zap

Shallow embedding of the Go package `log` (files `log.go`, `zap.go`, `logger.go`).

* Go values are modelled by Lean data: fixed-width integers are bounded subtypes of
  `ℤ` / `Fin (2^w)`, the platform-dependent `int` / `uint` take their width from an
  `Arch` parameter, floating-point values are carried as their IEEE bit patterns
  (they are only stored and handed on, never computed with).
* An `interface{}` is `Option Value`: `none` is the nil interface, `some v` a value
  together with its dynamic type.
* A failed type assertion is a Go run-time panic: functions that may panic return
  `Except Panic _`.
* The wrapped library (zap) is external.  A `zap.Field` is modelled as the symbolic
  constructor call that built it, so `zap.Field.String k v` stands for the result of
  the Go call `zap.String(k, v)`.
-/

namespace Log

/-! ## Go base types -/

/-- Word size of the target platform: Go fixes `int` and `uint` to 32 or 64 bits. -/
inductive Arch where
  | bits32
  | bits64
  deriving DecidableEq, Repr

/-- Width in bits of `int` and `uint` on the platform. -/
def Arch.intSize : Arch → Nat
  | .bits32 => 32
  | .bits64 => 64

/-- Signed two's-complement integers of width `w`. -/
abbrev sint (w : Nat) := {n : ℤ // -(2 : ℤ) ^ (w - 1) ≤ n ∧ n < (2 : ℤ) ^ (w - 1)}

/-- Unsigned integers of width `w`. -/
abbrev usint (w : Nat) := Fin (2 ^ w)

abbrev string := String
abbrev bool := Bool
abbrev int64 := sint 64
abbrev int32 := sint 32
abbrev int16 := sint 16
abbrev int8 := sint 8
abbrev int (a : Arch) := sint a.intSize
abbrev uint64 := usint 64
abbrev uint32 := usint 32
abbrev uint16 := usint 16
abbrev uint8 := usint 8
abbrev uint (a : Arch) := usint a.intSize
/-- A `float64`, carried as its 64-bit IEEE-754 pattern. -/
abbrev float64 := usint 64
/-- A `float32`, carried as its 32-bit IEEE-754 pattern. -/
abbrev float32 := usint 32
/-- A `[]byte`: `none` is the nil slice. -/
abbrev bytes := Option (List uint8)

/-- Go integer conversion to a signed type of width `w`: the value is reduced modulo
`2^w` and the result read as a two's-complement number. -/
def wrap (w : Nat) (n : ℤ) : ℤ :=
  let r := n % (2 : ℤ) ^ w
  if r < (2 : ℤ) ^ (w - 1) then r else r - (2 : ℤ) ^ w

/-- Conversion `intW(n)` of an integer to the signed type of width `w`. -/
def toSint (w : Nat) (n : ℤ) : sint w :=
  ⟨wrap w n, by
    have hpos : (0 : ℤ) < (2 : ℤ) ^ w := by positivity
    have h0 : 0 ≤ n % (2 : ℤ) ^ w := Int.emod_nonneg _ (ne_of_gt hpos)
    have h1 : n % (2 : ℤ) ^ w < (2 : ℤ) ^ w := Int.emod_lt_of_pos _ hpos
    have h2 : (2 : ℤ) ^ w ≤ 2 * (2 : ℤ) ^ (w - 1) := by
      rcases Nat.eq_zero_or_pos w with h | h
      · subst h; norm_num
      · have hw : w = (w - 1) + 1 := by omega
        conv_lhs => rw [hw, pow_succ]
        linarith
    have hpos1 : (0 : ℤ) < (2 : ℤ) ^ (w - 1) := by positivity
    unfold wrap
    simp only
    split <;> constructor <;> linarith⟩

/-- Sign-extending conversion `int64(v)` of a narrower signed value. -/
def widen64 {w : Nat} (hw : w ≤ 64) (v : sint w) : int64 :=
  ⟨v.val, by
    have hmono : (2 : ℤ) ^ (w - 1) ≤ (2 : ℤ) ^ (64 - 1) :=
      pow_le_pow_right₀ (by norm_num) (by omega)
    exact ⟨by linarith [v.property.1], by linarith [v.property.2]⟩⟩

/-! ## Dynamic values and interfaces -/

/-- A `time.Time` value (wall-clock word, monotonic/extended word, location); it is
only carried, never inspected. -/
structure time.Time where
  wall : uint64
  ext : int64
  loc : Option string
  deriving DecidableEq

/-- A `time.Duration` is an `int64` count of nanoseconds. -/
abbrev time.Duration := int64

/-- Description of a concrete Go type other than the ones the converter asserts:
its name and whether its method set has `Error() string` and `String() string`. -/
structure DynType where
  name : string
  hasError : bool
  hasString : bool
  deriving DecidableEq

/-- A non-nil dynamic value: a value paired with its dynamic (concrete) type.
The converter asserts the first ten types; `other` covers every other concrete type
(`string`, `int`, named types, pointers, structs, ...). -/
inductive Value (a : Arch) where
  | uint64 (v : uint64)
  | uint32 (v : uint32)
  | uint16 (v : uint16)
  | uint8 (v : uint8)
  | uint (v : uint a)
  | float64 (v : float64)
  | float32 (v : float32)
  | bool (v : bool)
  | time (v : time.Time)
  | bytes (v : bytes)
  | other (T : DynType) (repr : string)
  deriving DecidableEq

/-- The empty interface `interface{}`: `none` is nil. -/
abbrev iface (a : Arch) := Option (Value a)

/-- Whether the dynamic type has method `Error() string`, i.e. implements `error`. -/
def Value.implementsError {a : Arch} : Value a → Bool
  | .other T _ => T.hasError
  | _ => false

/-- Whether the dynamic type has method `String() string`, i.e. implements
`fmt.Stringer`; `time.Time` does. -/
def Value.implementsStringer {a : Arch} : Value a → Bool
  | .other T _ => T.hasString
  | .time _ => true
  | _ => false

/-- The interface type `error`: nil, or a value whose type implements it. -/
abbrev error (a : Arch) := Option {v : Value a // v.implementsError = true}

/-- The interface type `fmt.Stringer`: nil, or a value whose type implements it. -/
abbrev fmt.Stringer (a : Arch) := Option {v : Value a // v.implementsStringer = true}

/-- Assigning an `error` to an `interface{}` keeps the dynamic value (nil stays nil). -/
def error.toIface {a : Arch} (e : error a) : iface a := e.map Subtype.val

/-- Assigning a `fmt.Stringer` to an `interface{}` keeps the dynamic value. -/
def fmt.Stringer.toIface {a : Arch} (s : fmt.Stringer a) : iface a := s.map Subtype.val

/-- A run-time panic of a failed type assertion `x.(T)`; `want` names `T`. -/
inductive Panic where
  | interfaceConversion (want : string)
  deriving DecidableEq, Repr

/-! ## `log.go`: the field model -/

/-- The kind tag, `type FieldType uint8`. -/
abbrev FieldType := Fin 256

@[match_pattern] def UnknownType : FieldType := 0
@[match_pattern] def StringType : FieldType := 1
@[match_pattern] def Int64Type : FieldType := 2
@[match_pattern] def IntType : FieldType := 3
@[match_pattern] def Int32Type : FieldType := 4
@[match_pattern] def Int16Type : FieldType := 5
@[match_pattern] def Int8Type : FieldType := 6
@[match_pattern] def Uint64Type : FieldType := 7
@[match_pattern] def Uint32Type : FieldType := 8
@[match_pattern] def Uint16Type : FieldType := 9
@[match_pattern] def Uint8Type : FieldType := 10
@[match_pattern] def UintType : FieldType := 11
@[match_pattern] def Float64Type : FieldType := 12
@[match_pattern] def Float32Type : FieldType := 13
@[match_pattern] def BoolType : FieldType := 14
@[match_pattern] def ErrorType : FieldType := 15
@[match_pattern] def DurationType : FieldType := 16
@[match_pattern] def TimeType : FieldType := 17
@[match_pattern] def ByteStringType : FieldType := 18
@[match_pattern] def StringerType : FieldType := 19
@[match_pattern] def AnyType : FieldType := 20

/-- The zero `int64`. -/
def int64.zero : int64 := ⟨0, by norm_num⟩

/-- The struct `Field`.  Its Go member `Type` is spelled `Type_` here.  The defaults
are Go's zero values, taken by the members a struct literal leaves out. -/
structure Field (a : Arch) where
  Key : string := ""
  Type_ : FieldType := 0
  Integer : int64 := int64.zero
  String : string := ""
  Interface : iface a := none
  deriving DecidableEq

section constructors
variable {a : Arch}

def String (key : string) (val : string) : Field a :=
  { Key := key, Type_ := StringType, String := val }

def Int64 (key : string) (val : int64) : Field a :=
  { Key := key, Type_ := Int64Type, Integer := val }

def Int (key : string) (val : int a) : Field a :=
  { Key := key, Type_ := IntType, Integer := widen64 (by cases a <;> decide) val }

def Float64 (key : string) (val : float64) : Field a :=
  { Key := key, Type_ := Float64Type, Interface := some (.float64 val) }

def Float32 (key : string) (val : float32) : Field a :=
  { Key := key, Type_ := Float32Type, Interface := some (.float32 val) }

def Bool (key : string) (val : bool) : Field a :=
  { Key := key, Type_ := BoolType, Interface := some (.bool val) }

def Error (err : error a) : Field a :=
  if err = none then
    { Key := "error", Type_ := ErrorType, Interface := none }
  else
    { Key := "error", Type_ := ErrorType, Interface := err.toIface }

def Int32 (key : string) (val : int32) : Field a :=
  { Key := key, Type_ := Int32Type, Integer := widen64 (by decide) val }

def Int16 (key : string) (val : int16) : Field a :=
  { Key := key, Type_ := Int16Type, Integer := widen64 (by decide) val }

def Int8 (key : string) (val : int8) : Field a :=
  { Key := key, Type_ := Int8Type, Integer := widen64 (by decide) val }

def Uint64 (key : string) (val : uint64) : Field a :=
  { Key := key, Type_ := Uint64Type, Interface := some (.uint64 val) }

def Uint32 (key : string) (val : uint32) : Field a :=
  { Key := key, Type_ := Uint32Type, Interface := some (.uint32 val) }

def Uint16 (key : string) (val : uint16) : Field a :=
  { Key := key, Type_ := Uint16Type, Interface := some (.uint16 val) }

def Uint8 (key : string) (val : uint8) : Field a :=
  { Key := key, Type_ := Uint8Type, Interface := some (.uint8 val) }

def Uint (key : string) (val : uint a) : Field a :=
  { Key := key, Type_ := UintType, Interface := some (.uint val) }

def Duration (key : string) (val : time.Duration) : Field a :=
  { Key := key, Type_ := DurationType, Integer := val }

def Time (key : string) (val : time.Time) : Field a :=
  { Key := key, Type_ := TimeType, Interface := some (.time val) }

def ByteString (key : string) (val : bytes) : Field a :=
  { Key := key, Type_ := ByteStringType, Interface := some (.bytes val) }

def Stringer (key : string) (val : fmt.Stringer a) : Field a :=
  { Key := key, Type_ := StringerType, Interface := val.toIface }

def Any (key : string) (val : iface a) : Field a :=
  { Key := key, Type_ := AnyType, Interface := val }

end constructors

/-! ## The wrapped library's field vocabulary -/

/-- A `zap.Field`, as the constructor call of the wrapped library that built it:
`zap.Field.X k v` is the value of the Go expression `zap.X(k, v)`, and `zero` is the
zero value `zap.Field{}` that `make` fills a fresh slice with. -/
inductive zap.Field (a : Arch) where
  | zero
  | String (key : string) (val : string)
  | Int64 (key : string) (val : int64)
  | Int (key : string) (val : int a)
  | Int32 (key : string) (val : int32)
  | Int16 (key : string) (val : int16)
  | Int8 (key : string) (val : int8)
  | Uint64 (key : string) (val : uint64)
  | Uint32 (key : string) (val : uint32)
  | Uint16 (key : string) (val : uint16)
  | Uint8 (key : string) (val : uint8)
  | Uint (key : string) (val : uint a)
  | Float64 (key : string) (val : float64)
  | Float32 (key : string) (val : float32)
  | Bool (key : string) (val : bool)
  | Error (err : error a)
  | Duration (key : string) (val : time.Duration)
  | Time (key : string) (val : time.Time)
  | ByteString (key : string) (val : bytes)
  | Stringer (key : string) (val : fmt.Stringer a)
  | Any (key : string) (val : iface a)
  deriving DecidableEq

/-! ## `zap.go`: type assertions and the converter -/

section converter
variable {a : Arch}

/-- The type assertion `x.(uint64)`. -/
def assertUint64 : iface a → Except Panic uint64
  | some (.uint64 v) => .ok v
  | _ => .error (.interfaceConversion "uint64")

/-- The type assertion `x.(uint32)`. -/
def assertUint32 : iface a → Except Panic uint32
  | some (.uint32 v) => .ok v
  | _ => .error (.interfaceConversion "uint32")

/-- The type assertion `x.(uint16)`. -/
def assertUint16 : iface a → Except Panic uint16
  | some (.uint16 v) => .ok v
  | _ => .error (.interfaceConversion "uint16")

/-- The type assertion `x.(uint8)`. -/
def assertUint8 : iface a → Except Panic uint8
  | some (.uint8 v) => .ok v
  | _ => .error (.interfaceConversion "uint8")

/-- The type assertion `x.(uint)`. -/
def assertUint : iface a → Except Panic (uint a)
  | some (.uint v) => .ok v
  | _ => .error (.interfaceConversion "uint")

/-- The type assertion `x.(float64)`. -/
def assertFloat64 : iface a → Except Panic float64
  | some (.float64 v) => .ok v
  | _ => .error (.interfaceConversion "float64")

/-- The type assertion `x.(float32)`. -/
def assertFloat32 : iface a → Except Panic float32
  | some (.float32 v) => .ok v
  | _ => .error (.interfaceConversion "float32")

/-- The type assertion `x.(bool)`. -/
def assertBool : iface a → Except Panic bool
  | some (.bool v) => .ok v
  | _ => .error (.interfaceConversion "bool")

/-- The type assertion `x.(time.Time)`. -/
def assertTime : iface a → Except Panic time.Time
  | some (.time v) => .ok v
  | _ => .error (.interfaceConversion "time.Time")

/-- The type assertion `x.([]byte)`. -/
def assertBytes : iface a → Except Panic bytes
  | some (.bytes v) => .ok v
  | _ => .error (.interfaceConversion "[]uint8")

/-- The type assertion `x.(error)` to an interface type: it succeeds exactly when `x`
is non-nil and its dynamic type implements `error`. -/
def assertError : iface a → Except Panic (error a)
  | some v =>
    if h : v.implementsError = true then .ok (some ⟨v, h⟩)
    else .error (.interfaceConversion "error")
  | none => .error (.interfaceConversion "error")

/-- The type assertion `x.(fmt.Stringer)` to an interface type: it succeeds exactly
when `x` is non-nil and its dynamic type implements `fmt.Stringer`. -/
def assertStringer : iface a → Except Panic (fmt.Stringer a)
  | some v =>
    if h : v.implementsStringer = true then .ok (some ⟨v, h⟩)
    else .error (.interfaceConversion "fmt.Stringer")
  | none => .error (.interfaceConversion "fmt.Stringer")

/-- Source comment: `convertField converts a single Field to zap.Field.` -/
def convertField (f : Field a) : Except Panic (zap.Field a) :=
  match f.Type_ with
  | StringType => .ok (.String f.Key f.String)
  | Int64Type => .ok (.Int64 f.Key f.Integer)
  | IntType => .ok (.Int f.Key (toSint a.intSize f.Integer.val))
  | Int32Type => .ok (.Int32 f.Key (toSint 32 f.Integer.val))
  | Int16Type => .ok (.Int16 f.Key (toSint 16 f.Integer.val))
  | Int8Type => .ok (.Int8 f.Key (toSint 8 f.Integer.val))
  | Uint64Type => (assertUint64 f.Interface).map (.Uint64 f.Key)
  | Uint32Type => (assertUint32 f.Interface).map (.Uint32 f.Key)
  | Uint16Type => (assertUint16 f.Interface).map (.Uint16 f.Key)
  | Uint8Type => (assertUint8 f.Interface).map (.Uint8 f.Key)
  | UintType => (assertUint f.Interface).map (.Uint f.Key)
  | Float64Type => (assertFloat64 f.Interface).map (.Float64 f.Key)
  | Float32Type => (assertFloat32 f.Interface).map (.Float32 f.Key)
  | BoolType => (assertBool f.Interface).map (.Bool f.Key)
  | ErrorType =>
    if f.Interface = none then .ok (.Error none)
    else (assertError f.Interface).map .Error
  | DurationType => .ok (.Duration f.Key f.Integer)
  | TimeType => (assertTime f.Interface).map (.Time f.Key)
  | ByteStringType => (assertBytes f.Interface).map (.ByteString f.Key)
  | StringerType => (assertStringer f.Interface).map (.Stringer f.Key)
  | AnyType => .ok (.Any f.Key f.Interface)
  | _ => .ok (.Any f.Key f.Interface)

/-- The `for i, f := range fields` loop of `convertFields`: element `i` of the
destination slice is overwritten with the converted field; a panic aborts the loop. -/
def convertFieldsLoop : List (Field a) → Nat → List (zap.Field a) →
    Except Panic (List (zap.Field a))
  | [], _, zapFields => .ok zapFields
  | f :: rest, i, zapFields =>
    match convertField f with
    | .ok z => convertFieldsLoop rest (i + 1) (zapFields.set i z)
    | .error p => .error p

/-- Source comment: `convertFields converts our Field type to zap.Field.` -/
def convertFields (fields : List (Field a)) : Except Panic (List (zap.Field a)) :=
  let zapFields := List.replicate fields.length zap.Field.zero
  convertFieldsLoop fields 0 zapFields

end converter

/-! ## The wrapped logger and the adapter -/

/-- The six leveled methods of `*zap.Logger` the adapter calls. -/
inductive zap.Method where
  | Debug
  | Info
  | Warn
  | Error
  | Panic
  | Fatal
  deriving DecidableEq, Repr

/-- One call received by the wrapped logger: which method, with which message and
which fields, in argument order. -/
structure zap.Call (a : Arch) where
  method : zap.Method
  msg : string
  fields : List (zap.Field a)
  deriving DecidableEq

/-- Severity levels of `zapcore`. -/
inductive zapcore.Level where
  | DebugLevel
  | InfoLevel
  | WarnLevel
  | ErrorLevel
  | DPanicLevel
  | PanicLevel
  | FatalLevel
  deriving DecidableEq, Repr

/-- Time encoders of `zapcore`. -/
inductive zapcore.TimeEncoder where
  | EpochTimeEncoder
  | ISO8601TimeEncoder
  deriving DecidableEq, Repr

/-- A `zapcore.EncoderConfig`; of its members only `EncodeTime` is touched by this
package. -/
structure zapcore.EncoderConfig where
  EncodeTime : zapcore.TimeEncoder
  deriving DecidableEq, Repr

/-- The call `zap.NewProductionEncoderConfig()`: the library preset, which encodes time as
epoch seconds. -/
def zap.NewProductionEncoderConfig : zapcore.EncoderConfig :=
  { EncodeTime := .EpochTimeEncoder }

/-- A `zapcore.Encoder`, as the call that built it. -/
inductive zapcore.Encoder where
  | NewJSONEncoder (cfg : zapcore.EncoderConfig)
  | NewConsoleEncoder (cfg : zapcore.EncoderConfig)
  deriving DecidableEq, Repr

/-- An `*os.File` handle. -/
structure os.File where
  fd : Nat
  name : string
  deriving DecidableEq, Repr

/-- The standard output handle `os.Stdout`. -/
def os.Stdout : os.File := { fd := 1, name := "/dev/stdout" }

/-- Flags of `os.OpenFile`; a flag word `A|B|C` is the list of its flags. -/
inductive os.OpenFlag where
  | O_RDONLY
  | O_WRONLY
  | O_RDWR
  | O_APPEND
  | O_CREATE
  | O_EXCL
  | O_SYNC
  | O_TRUNC
  deriving DecidableEq, Repr

/-- A `zapcore.WriteSyncer`, as the call `zapcore.AddSync(w)` on a file pointer
(`none` is the nil pointer). -/
inductive zapcore.WriteSyncer where
  | AddSync (w : Option os.File)
  deriving DecidableEq, Repr

/-- A `zapcore.Core`, as the call that built it. -/
inductive zapcore.Core where
  | NewCore (enc : zapcore.Encoder) (ws : zapcore.WriteSyncer) (enab : zapcore.Level)
  | NewTee (cores : List zapcore.Core)

/-- Options of `zap.New` / `WithOptions`. -/
inductive zap.Option where
  | AddCaller
  | AddStacktrace (lvl : zapcore.Level)
  | AddCallerSkip (skip : ℤ)
  deriving DecidableEq, Repr

/-- A `*zap.Logger`: the core and options it was built with, and the calls of its
leveled methods it has received so far, oldest first.  What the library does with a
call (encoding, level filtering, writing, and the panic / process exit that follow a
`Panic` / `Fatal` record) is the library's and is not modelled. -/
structure zap.Logger (a : Arch) where
  core : zapcore.Core
  options : List zap.Option
  received : List (zap.Call a) := []

/-- The call `zap.New(core, options...)`. -/
def zap.New {a : Arch} (core : zapcore.Core) (options : List zap.Option) : zap.Logger a :=
  { core := core, options := options }

/-- The method `(*zap.Logger).WithOptions(opts...)`: a clone with the options applied after the
existing ones. -/
def zap.Logger.WithOptions {a : Arch} (l : zap.Logger a) (opts : List zap.Option) :
    zap.Logger a :=
  { l with options := l.options ++ opts }

/-- The wrapped logger receives a call of the given method. -/
def zap.Logger.receive {a : Arch} (l : zap.Logger a) (m : zap.Method) (msg : string)
    (fields : List (zap.Field a)) : zap.Logger a :=
  { l with received := l.received ++ [{ method := m, msg := msg, fields := fields }] }

def zap.Logger.Debug {a : Arch} (l : zap.Logger a) (msg : string)
    (fields : List (zap.Field a)) : zap.Logger a := l.receive .Debug msg fields

def zap.Logger.Info {a : Arch} (l : zap.Logger a) (msg : string)
    (fields : List (zap.Field a)) : zap.Logger a := l.receive .Info msg fields

def zap.Logger.Warn {a : Arch} (l : zap.Logger a) (msg : string)
    (fields : List (zap.Field a)) : zap.Logger a := l.receive .Warn msg fields

def zap.Logger.Error {a : Arch} (l : zap.Logger a) (msg : string)
    (fields : List (zap.Field a)) : zap.Logger a := l.receive .Error msg fields

def zap.Logger.Panic {a : Arch} (l : zap.Logger a) (msg : string)
    (fields : List (zap.Field a)) : zap.Logger a := l.receive .Panic msg fields

def zap.Logger.Fatal {a : Arch} (l : zap.Logger a) (msg : string)
    (fields : List (zap.Field a)) : zap.Logger a := l.receive .Fatal msg fields

/-- Source comment: `zapLoggerAdapter wraps a *zap.Logger to implement the Logger
interface.` -/
structure zapLoggerAdapter (a : Arch) where
  logger : zap.Logger a

/-- Source comment: `NewZapAdapter creates a new Logger that wraps the given
*zap.Logger.` -/
def NewZapAdapter {a : Arch} (logger : zap.Logger a) : zapLoggerAdapter a :=
  { logger := logger }

section adapter
variable {a : Arch}

/-! Each method first evaluates its argument `convertFields(fields)`; a panic there
propagates before the wrapped logger is called.  Otherwise the result is the adapter
after the delegated call. -/

def zapLoggerAdapter.Debug (z : zapLoggerAdapter a) (msg : string)
    (fields : List (Log.Field a)) : Except Log.Panic (zapLoggerAdapter a) :=
  match convertFields fields with
  | .ok zapFields => .ok { logger := z.logger.Debug msg zapFields }
  | .error p => .error p

def zapLoggerAdapter.Info (z : zapLoggerAdapter a) (msg : string)
    (fields : List (Log.Field a)) : Except Log.Panic (zapLoggerAdapter a) :=
  match convertFields fields with
  | .ok zapFields => .ok { logger := z.logger.Info msg zapFields }
  | .error p => .error p

def zapLoggerAdapter.Warn (z : zapLoggerAdapter a) (msg : string)
    (fields : List (Log.Field a)) : Except Log.Panic (zapLoggerAdapter a) :=
  match convertFields fields with
  | .ok zapFields => .ok { logger := z.logger.Warn msg zapFields }
  | .error p => .error p

def zapLoggerAdapter.Error (z : zapLoggerAdapter a) (msg : string)
    (fields : List (Log.Field a)) : Except Log.Panic (zapLoggerAdapter a) :=
  match convertFields fields with
  | .ok zapFields => .ok { logger := z.logger.Error msg zapFields }
  | .error p => .error p

def zapLoggerAdapter.Panic (z : zapLoggerAdapter a) (msg : string)
    (fields : List (Log.Field a)) : Except Log.Panic (zapLoggerAdapter a) :=
  match convertFields fields with
  | .ok zapFields => .ok { logger := z.logger.Panic msg zapFields }
  | .error p => .error p

def zapLoggerAdapter.Fatal (z : zapLoggerAdapter a) (msg : string)
    (fields : List (Log.Field a)) : Except Log.Panic (zapLoggerAdapter a) :=
  match convertFields fields with
  | .ok zapFields => .ok { logger := z.logger.Fatal msg zapFields }
  | .error p => .error p

end adapter

/-! ## `logger.go`: logger construction -/

/-- The level selector, `type LoggingLevel uint64`. -/
abbrev LoggingLevel := usint 64

def Production : LoggingLevel := 0
def Development : LoggingLevel := 1

/-- The environment call `os.OpenFile(name, flag, perm)`, returning Go's pair of a file
pointer and an error. -/
structure os.Env (a : Arch) where
  OpenFile : string → List os.OpenFlag → Nat → Option os.File × error a

/-- The function `GetLogger(level, disableLogToConsole, filename)`, returning Go's pair of a
`Logger` (nil is `none`) and an error. -/
def GetLogger {a : Arch} (env : os.Env a) (level : LoggingLevel)
    (disableLogToConsole : bool) (filename : string) :
    Option (zapLoggerAdapter a) × error a :=
  let config := zap.NewProductionEncoderConfig
  let config := { config with EncodeTime := zapcore.TimeEncoder.ISO8601TimeEncoder }
  let fileEncoder := zapcore.Encoder.NewJSONEncoder config
  let consoleEncoder := zapcore.Encoder.NewConsoleEncoder config
  let (logFile, err) := env.OpenFile filename [.O_APPEND, .O_CREATE, .O_WRONLY] 0o644
  if err ≠ none then
    (none, err)
  else
    let writer := zapcore.WriteSyncer.AddSync logFile
    let defaultLogLevel := zapcore.Level.DebugLevel
    let defaultLogLevel :=
      if level = Production then zapcore.Level.InfoLevel else defaultLogLevel
    let core := zapcore.Core.NewTee [
      .NewCore fileEncoder writer defaultLogLevel,
      .NewCore consoleEncoder (.AddSync (some os.Stdout)) defaultLogLevel]
    let core :=
      if disableLogToConsole = true then
        zapcore.Core.NewTee [.NewCore fileEncoder writer defaultLogLevel]
      else core
    let zapLogger : zap.Logger a :=
      zap.New core [.AddCaller, .AddStacktrace zapcore.Level.ErrorLevel]
    let adjustedLogger := zapLogger.WithOptions [.AddCallerSkip 1]
    (some (NewZapAdapter adjustedLogger), none)

/-! ## Specification vocabulary -/

/-- One leaf of a core tree: an encoder writing to a sink at a minimum level. -/
structure zapcore.Sink where
  enc : zapcore.Encoder
  ws : zapcore.WriteSyncer
  enab : zapcore.Level
  deriving DecidableEq, Repr

mutual
/-- The encoder/writer/level leaves a core is built from, in argument order. -/
def zapcore.Core.sinks : zapcore.Core → List zapcore.Sink
  | .NewCore enc ws enab => [{ enc := enc, ws := ws, enab := enab }]
  | .NewTee cores => zapcore.Core.sinksOfList cores
/-- The leaves of a list of cores. -/
def zapcore.Core.sinksOfList : List zapcore.Core → List zapcore.Sink
  | [] => []
  | c :: cs => c.sinks ++ zapcore.Core.sinksOfList cs
end

/-- An adapter method `run` delegates to method `m` of the wrapped logger: when
`convertFields` returns `zs`, the wrapped logger receives exactly one more call, of
method `m` with the unchanged message and `zs`, and is otherwise unchanged; when
`convertFields` panics, the method panics the same way. -/
def Delegates {a : Arch}
    (run : zapLoggerAdapter a → string → List (Field a) → Except Panic (zapLoggerAdapter a))
    (m : zap.Method) : Prop :=
  ∀ (z : zapLoggerAdapter a) (msg : string) (fs : List (Field a)),
    match convertFields fs, run z msg fs with
    | .ok zs, .ok z' =>
        z'.logger.received = z.logger.received ++ [{ method := m, msg := msg, fields := zs }] ∧
        z'.logger.core = z.logger.core ∧ z'.logger.options = z.logger.options
    | .error p, .error q => p = q
    | _, _ => False

/-- The kinds whose payload the converter reads through a type assertion. -/
def assertedKinds : List FieldType :=
  [Uint64Type, Uint32Type, Uint16Type, Uint8Type, UintType, Float64Type, Float32Type,
   BoolType, ErrorType, TimeType, ByteStringType, StringerType]

/-- Whether the `Interface` payload `x` has the dynamic type kind `t` stands for
(for `ErrorType` a nil payload, meaning no error, also matches).  Kinds that do not
use the `Interface` slot for a typed payload match anything. -/
def payloadMatches {a : Arch} (t : FieldType) (x : iface a) : bool :=
  match t, x with
  | Uint64Type, some (.uint64 _) => true
  | Uint64Type, _ => false
  | Uint32Type, some (.uint32 _) => true
  | Uint32Type, _ => false
  | Uint16Type, some (.uint16 _) => true
  | Uint16Type, _ => false
  | Uint8Type, some (.uint8 _) => true
  | Uint8Type, _ => false
  | UintType, some (.uint _) => true
  | UintType, _ => false
  | Float64Type, some (.float64 _) => true
  | Float64Type, _ => false
  | Float32Type, some (.float32 _) => true
  | Float32Type, _ => false
  | BoolType, some (.bool _) => true
  | BoolType, _ => false
  | ErrorType, none => true
  | ErrorType, some v => v.implementsError
  | TimeType, some (.time _) => true
  | TimeType, _ => false
  | ByteStringType, some (.bytes _) => true
  | ByteStringType, _ => false
  | StringerType, some v => v.implementsStringer
  | StringerType, none => false
  | _, _ => true


/-- The key a zap field carries.  Facts of the wrapped library: every keyed constructor
stores its key argument; `zap.Error(err)` is `zap.NamedError("error", err)`, which for
a nil error is the no-op field `zap.Skip()`, whose key is empty, as is the key of the
zero field. -/
def zap.Field.Key {a : Arch} : zap.Field a → string
  | .zero => ""
  | .String key _ => key
  | .Int64 key _ => key
  | .Int key _ => key
  | .Int32 key _ => key
  | .Int16 key _ => key
  | .Int8 key _ => key
  | .Uint64 key _ => key
  | .Uint32 key _ => key
  | .Uint16 key _ => key
  | .Uint8 key _ => key
  | .Uint key _ => key
  | .Float64 key _ => key
  | .Float32 key _ => key
  | .Bool key _ => key
  | .Error (some _) => "error"
  | .Error none => ""
  | .Duration key _ => key
  | .Time key _ => key
  | .ByteString key _ => key
  | .Stringer key _ => key
  | .Any key _ => key

/-- A call of one of the twenty field constructors of `log.go`, with its arguments. -/
inductive CtorCall (a : Arch) where
  | String (key : string) (val : string)
  | Int64 (key : string) (val : int64)
  | Int (key : string) (val : int a)
  | Int32 (key : string) (val : int32)
  | Int16 (key : string) (val : int16)
  | Int8 (key : string) (val : int8)
  | Uint64 (key : string) (val : uint64)
  | Uint32 (key : string) (val : uint32)
  | Uint16 (key : string) (val : uint16)
  | Uint8 (key : string) (val : uint8)
  | Uint (key : string) (val : uint a)
  | Float64 (key : string) (val : float64)
  | Float32 (key : string) (val : float32)
  | Bool (key : string) (val : bool)
  | Error (err : error a)
  | Duration (key : string) (val : time.Duration)
  | Time (key : string) (val : time.Time)
  | ByteString (key : string) (val : bytes)
  | Stringer (key : string) (val : fmt.Stringer a)
  | Any (key : string) (val : iface a)
  deriving DecidableEq

/-- The `Field` the constructor call returns. -/
def CtorCall.field {a : Arch} : CtorCall a → Field a
  | .String key val => Log.String key val
  | .Int64 key val => Log.Int64 key val
  | .Int key val => Log.Int key val
  | .Int32 key val => Log.Int32 key val
  | .Int16 key val => Log.Int16 key val
  | .Int8 key val => Log.Int8 key val
  | .Uint64 key val => Log.Uint64 key val
  | .Uint32 key val => Log.Uint32 key val
  | .Uint16 key val => Log.Uint16 key val
  | .Uint8 key val => Log.Uint8 key val
  | .Uint key val => Log.Uint key val
  | .Float64 key val => Log.Float64 key val
  | .Float32 key val => Log.Float32 key val
  | .Bool key val => Log.Bool key val
  | .Error err => Log.Error err
  | .Duration key val => Log.Duration key val
  | .Time key val => Log.Time key val
  | .ByteString key val => Log.ByteString key val
  | .Stringer key val => Log.Stringer key val
  | .Any key val => Log.Any key val

/-- The wrapped library's constructor of the same name, applied to the same
arguments. -/
def CtorCall.zapCall {a : Arch} : CtorCall a → zap.Field a
  | .String key val => .String key val
  | .Int64 key val => .Int64 key val
  | .Int key val => .Int key val
  | .Int32 key val => .Int32 key val
  | .Int16 key val => .Int16 key val
  | .Int8 key val => .Int8 key val
  | .Uint64 key val => .Uint64 key val
  | .Uint32 key val => .Uint32 key val
  | .Uint16 key val => .Uint16 key val
  | .Uint8 key val => .Uint8 key val
  | .Uint key val => .Uint key val
  | .Float64 key val => .Float64 key val
  | .Float32 key val => .Float32 key val
  | .Bool key val => .Bool key val
  | .Error err => .Error err
  | .Duration key val => .Duration key val
  | .Time key val => .Time key val
  | .ByteString key val => .ByteString key val
  | .Stringer key val => .Stringer key val
  | .Any key val => .Any key val

/-- An environment in which every open succeeds, with descriptor 3. -/
def os.Env.allOpen : os.Env Arch.bits64 :=
  { OpenFile := fun name _ _ => (some { fd := 3, name := name }, none) }

/-- Whether the sink encodes records as JSON (the structured format). -/
def zapcore.Sink.isJSON (c : zapcore.Sink) : bool :=
  match c.enc with
  | .NewJSONEncoder _ => true
  | .NewConsoleEncoder _ => false

/-- Whether the sink encodes records in the human-readable console format. -/
def zapcore.Sink.isConsole (c : zapcore.Sink) : bool :=
  match c.enc with
  | .NewJSONEncoder _ => false
  | .NewConsoleEncoder _ => true

/-! ## `log.go` and `zap.go`: the sugared logger -/

/-- Go types that occur in the method signatures of `SugaredLogger`. -/
inductive GoType where
  | string
  | emptyInterface
  deriving DecidableEq, Repr

/-- A parameter of a method: its name, its type, and whether it is variadic
(`name ...T`). -/
structure MethodParam where
  name : string
  type_ : GoType
  variadic : bool
  deriving DecidableEq, Repr

/-- A method of an interface declaration: name, parameters, results. -/
structure MethodSig where
  name : string
  params : List MethodParam
  results : List GoType
  deriving DecidableEq, Repr

/-- The declaration `type SugaredLogger interface { Panicf(template string, args
...interface{}) }` of `log.go`, as its method set. -/
def SugaredLogger : List MethodSig :=
  [{ name := "Panicf",
     params := [{ name := "template", type_ := .string, variadic := false },
                { name := "args", type_ := .emptyInterface, variadic := true }],
     results := [] }]

/-- A `*zap.SugaredLogger`: the sugared view of a logger. -/
structure zap.SugaredLogger (a : Arch) where
  base : zap.Logger a

/-- The method `(*zap.Logger).Sugar()`. -/
def zap.Logger.Sugar {a : Arch} (l : zap.Logger a) : zap.SugaredLogger a :=
  { base := l }

/-- The adapter's `Sugar()`: it returns the wrapped logger's sugared logger, seen
through the interface `SugaredLogger`. -/
def zapLoggerAdapter.Sugar {a : Arch} (z : zapLoggerAdapter a) : zap.SugaredLogger a :=
  z.logger.Sugar

/-- The printf-style methods of `*zap.SugaredLogger` and the level each logs at
(facts of the wrapped library). -/
def zap.SugaredLogger.printfLevels : List (string × zapcore.Level) :=
  [("Debugf", .DebugLevel), ("Infof", .InfoLevel), ("Warnf", .WarnLevel),
   ("Errorf", .ErrorLevel), ("DPanicf", .DPanicLevel), ("Panicf", .PanicLevel),
   ("Fatalf", .FatalLevel)]

/-- The level at which a method of the interface logs when the sugared logger of the
wrapped library implements it. -/
def MethodSig.level (m : MethodSig) : Option zapcore.Level :=
  zap.SugaredLogger.printfLevels.lookup m.name

/-- Whether a method is printf-style: a `string` template followed by variadic
`interface{}` arguments. -/
def MethodSig.isPrintfStyle (m : MethodSig) : bool :=
  match m.params with
  | [t, args] =>
    decide (t.type_ = GoType.string) && !t.variadic &&
      decide (args.type_ = GoType.emptyInterface) && args.variadic
  | _ => false

/-! ## Slots of a field -/

/-- The three payload slots of a `Field`. -/
inductive Slot where
  | String
  | Integer
  | Interface
  deriving DecidableEq, Repr

/-- The slot a kind uses: `String` for `StringType`; `Integer` for `Int64`, `Int`,
`Int32`, `Int16`, `Int8` and `Duration`; `Interface` for every other kind tag. -/
def usedSlot (t : FieldType) : Slot :=
  match t with
  | StringType => .String
  | Int64Type => .Integer
  | IntType => .Integer
  | Int32Type => .Integer
  | Int16Type => .Integer
  | Int8Type => .Integer
  | DurationType => .Integer
  | _ => .Interface

/-- Two fields hold the same content in the given slot. -/
def Field.agreeOn {a : Arch} (f g : Field a) (slot : Slot) : Prop :=
  match slot with
  | .String => f.String = g.String
  | .Integer => f.Integer = g.Integer
  | .Interface => f.Interface = g.Interface

/-- A hand-built `StringType` field with all three slots filled. -/
def Field.exampleFull : Field Arch.bits64 :=
  { Key := "k", Type_ := StringType, Integer := ⟨5, by norm_num⟩, String := "v",
    Interface := some (Value.bool true) }

/-- The `StringType` field with the same key and `String` slot and nothing else. -/
def Field.exampleBare : Field Arch.bits64 :=
  { Key := "k", Type_ := StringType, String := "v" }

/-- A non-nil `error`: a value of a type with an `Error() string` method. -/
def error.example : error Arch.bits64 :=
  some ⟨Value.other { name := "*errors.errorString", hasError := true, hasString := false }
    "boom", rfl⟩

/-- A hand-built `ErrorType` field under another key than "error". -/
def Field.exampleError : Field Arch.bits64 :=
  { Key := "cause", Type_ := ErrorType, Interface := error.example.toIface }

/-- An environment in which every open succeeds with descriptor 1; opening
"/dev/stdout" there hands back the handle that `os.Stdout` is. -/
def os.Env.stdoutOpen : os.Env Arch.bits64 :=
  { OpenFile := fun name _ _ => (some { fd := 1, name := name }, none) }

/-- An adapter around a logger that has received no call yet. -/
def zapLoggerAdapter.example : zapLoggerAdapter Arch.bits64 :=
  NewZapAdapter (zap.New (zapcore.Core.NewTee []) [])

/-! ## Integer conversions -/

/-- A wrapped value lies in the signed range of its width. -/
theorem wrap_inRange (w : Nat) (n : ℤ) :
    -(2 : ℤ) ^ (w - 1) ≤ wrap w n ∧ wrap w n < (2 : ℤ) ^ (w - 1) := by
  have hpos : (0 : ℤ) < (2 : ℤ) ^ w := by positivity
  have hpos1 : (0 : ℤ) < (2 : ℤ) ^ (w - 1) := by positivity
  have h0 : 0 ≤ n % (2 : ℤ) ^ w := Int.emod_nonneg _ (ne_of_gt hpos)
  have h1 : n % (2 : ℤ) ^ w < (2 : ℤ) ^ w := Int.emod_lt_of_pos _ hpos
  have h2 : (2 : ℤ) ^ w ≤ 2 * (2 : ℤ) ^ (w - 1) := by
    rcases Nat.eq_zero_or_pos w with h | h
    · subst h; norm_num
    · have : w = (w - 1) + 1 := by omega
      conv_lhs => rw [this, pow_succ]
      linarith
  unfold wrap
  simp only
  split <;> constructor <;> linarith

/-- Wrapping leaves a value of the signed range unchanged. -/
theorem wrap_of_inRange (w : Nat) (n : ℤ) (hw : 0 < w)
    (h : -(2 : ℤ) ^ (w - 1) ≤ n ∧ n < (2 : ℤ) ^ (w - 1)) : wrap w n = n := by
  have e : (2 : ℤ) ^ w = 2 * (2 : ℤ) ^ (w - 1) := by
    have : w = (w - 1) + 1 := by omega
    conv_lhs => rw [this, pow_succ]
    ring
  have hpos1 : (0 : ℤ) < (2 : ℤ) ^ (w - 1) := by positivity
  unfold wrap
  simp only
  by_cases hn : 0 ≤ n
  · have hm : n % (2 : ℤ) ^ w = n := Int.emod_eq_of_lt hn (by linarith [h.2])
    rw [hm, if_pos h.2]
  · have hn' : n < 0 := lt_of_not_ge hn
    have hm : n % (2 : ℤ) ^ w = n + (2 : ℤ) ^ w := by
      rw [← Int.add_emod_self]
      exact Int.emod_eq_of_lt (by linarith [h.1]) (by linarith)
    rw [hm, if_neg (by linarith [h.1])]
    ring

/-- Widening keeps the number. -/
theorem widen64_val {w : Nat} (hw : w ≤ 64) (v : sint w) : (widen64 hw v).val = v.val := rfl

theorem Arch.intSize_le (a : Arch) : a.intSize ≤ 64 := by
  cases a <;> decide

theorem Arch.intSize_pos (a : Arch) : 0 < a.intSize := by
  cases a <;> decide

/-! ## The converter, case by case -/

section cases
variable {a : Arch}

/-- The `Uint64Type` case of the switch. -/
theorem convertField_of_Uint64Type (f : Field a) (h : f.Type_ = Uint64Type) :
    convertField f = (assertUint64 f.Interface).map (zap.Field.Uint64 f.Key) := by
  obtain ⟨k, t, i, s, x⟩ := f
  subst h
  rfl

/-- The `Uint32Type` case of the switch. -/
theorem convertField_of_Uint32Type (f : Field a) (h : f.Type_ = Uint32Type) :
    convertField f = (assertUint32 f.Interface).map (zap.Field.Uint32 f.Key) := by
  obtain ⟨k, t, i, s, x⟩ := f
  subst h
  rfl

/-- The `Uint16Type` case of the switch. -/
theorem convertField_of_Uint16Type (f : Field a) (h : f.Type_ = Uint16Type) :
    convertField f = (assertUint16 f.Interface).map (zap.Field.Uint16 f.Key) := by
  obtain ⟨k, t, i, s, x⟩ := f
  subst h
  rfl

/-- The `Uint8Type` case of the switch. -/
theorem convertField_of_Uint8Type (f : Field a) (h : f.Type_ = Uint8Type) :
    convertField f = (assertUint8 f.Interface).map (zap.Field.Uint8 f.Key) := by
  obtain ⟨k, t, i, s, x⟩ := f
  subst h
  rfl

/-- The `UintType` case of the switch. -/
theorem convertField_of_UintType (f : Field a) (h : f.Type_ = UintType) :
    convertField f = (assertUint f.Interface).map (zap.Field.Uint f.Key) := by
  obtain ⟨k, t, i, s, x⟩ := f
  subst h
  rfl

/-- The `Float64Type` case of the switch. -/
theorem convertField_of_Float64Type (f : Field a) (h : f.Type_ = Float64Type) :
    convertField f = (assertFloat64 f.Interface).map (zap.Field.Float64 f.Key) := by
  obtain ⟨k, t, i, s, x⟩ := f
  subst h
  rfl

/-- The `Float32Type` case of the switch. -/
theorem convertField_of_Float32Type (f : Field a) (h : f.Type_ = Float32Type) :
    convertField f = (assertFloat32 f.Interface).map (zap.Field.Float32 f.Key) := by
  obtain ⟨k, t, i, s, x⟩ := f
  subst h
  rfl

/-- The `BoolType` case of the switch. -/
theorem convertField_of_BoolType (f : Field a) (h : f.Type_ = BoolType) :
    convertField f = (assertBool f.Interface).map (zap.Field.Bool f.Key) := by
  obtain ⟨k, t, i, s, x⟩ := f
  subst h
  rfl

/-- The `TimeType` case of the switch. -/
theorem convertField_of_TimeType (f : Field a) (h : f.Type_ = TimeType) :
    convertField f = (assertTime f.Interface).map (zap.Field.Time f.Key) := by
  obtain ⟨k, t, i, s, x⟩ := f
  subst h
  rfl

/-- The `ByteStringType` case of the switch. -/
theorem convertField_of_ByteStringType (f : Field a) (h : f.Type_ = ByteStringType) :
    convertField f = (assertBytes f.Interface).map (zap.Field.ByteString f.Key) := by
  obtain ⟨k, t, i, s, x⟩ := f
  subst h
  rfl

/-- The `StringerType` case of the switch. -/
theorem convertField_of_StringerType (f : Field a) (h : f.Type_ = StringerType) :
    convertField f = (assertStringer f.Interface).map (zap.Field.Stringer f.Key) := by
  obtain ⟨k, t, i, s, x⟩ := f
  subst h
  rfl

/-- The `ErrorType` case of the switch. -/
theorem convertField_of_ErrorType (f : Field a) (h : f.Type_ = ErrorType) :
    convertField f = (if f.Interface = none then .ok (zap.Field.Error none)
      else (assertError f.Interface).map zap.Field.Error) := by
  obtain ⟨k, t, i, s, x⟩ := f
  subst h
  rfl

/-- The `StringType` case of the switch. -/
theorem convertField_of_StringType (f : Field a) (h : f.Type_ = StringType) :
    convertField f = .ok (zap.Field.String f.Key f.String) := by
  obtain ⟨k, t, i, s, x⟩ := f
  subst h
  rfl

/-- The `Int64Type` case of the switch. -/
theorem convertField_of_Int64Type (f : Field a) (h : f.Type_ = Int64Type) :
    convertField f = .ok (zap.Field.Int64 f.Key f.Integer) := by
  obtain ⟨k, t, i, s, x⟩ := f
  subst h
  rfl

/-- The `IntType` case of the switch. -/
theorem convertField_of_IntType (f : Field a) (h : f.Type_ = IntType) :
    convertField f = .ok (zap.Field.Int f.Key (toSint a.intSize f.Integer.val)) := by
  obtain ⟨k, t, i, s, x⟩ := f
  subst h
  rfl

/-- The `Int32Type` case of the switch. -/
theorem convertField_of_Int32Type (f : Field a) (h : f.Type_ = Int32Type) :
    convertField f = .ok (zap.Field.Int32 f.Key (toSint 32 f.Integer.val)) := by
  obtain ⟨k, t, i, s, x⟩ := f
  subst h
  rfl

/-- The `Int16Type` case of the switch. -/
theorem convertField_of_Int16Type (f : Field a) (h : f.Type_ = Int16Type) :
    convertField f = .ok (zap.Field.Int16 f.Key (toSint 16 f.Integer.val)) := by
  obtain ⟨k, t, i, s, x⟩ := f
  subst h
  rfl

/-- The `Int8Type` case of the switch. -/
theorem convertField_of_Int8Type (f : Field a) (h : f.Type_ = Int8Type) :
    convertField f = .ok (zap.Field.Int8 f.Key (toSint 8 f.Integer.val)) := by
  obtain ⟨k, t, i, s, x⟩ := f
  subst h
  rfl

/-- The `DurationType` case of the switch. -/
theorem convertField_of_DurationType (f : Field a) (h : f.Type_ = DurationType) :
    convertField f = .ok (zap.Field.Duration f.Key f.Integer) := by
  obtain ⟨k, t, i, s, x⟩ := f
  subst h
  rfl

/-- The `AnyType` case of the switch. -/
theorem convertField_of_AnyType (f : Field a) (h : f.Type_ = AnyType) :
    convertField f = .ok (zap.Field.Any f.Key f.Interface) := by
  obtain ⟨k, t, i, s, x⟩ := f
  subst h
  rfl

/-- The `default` case of the switch. -/
theorem convertField_of_default (f : Field a)
    (h : f.Type_ = UnknownType ∨ 21 ≤ f.Type_.val) :
    convertField f = .ok (zap.Field.Any f.Key f.Interface) := by
  obtain ⟨k, ⟨t, ht⟩, i, s, x⟩ := f
  rcases h with h | h
  · have h0 : t = 0 := by simpa [UnknownType, Fin.ext_iff] using h
    subst h0
    rfl
  · obtain ⟨n, rfl⟩ : ∃ n, t = n + 21 := ⟨t - 21, by simp at h; omega⟩
    rfl

end cases

/-! ## Properties of `convertFields` -/

section convertFieldsLemmas
variable {a : Arch}

/-- Loop invariant of `convertFields`: once the first `pre.length` elements have been
written, the rest of the loop appends the conversions of the remaining fields. -/
theorem convertFieldsLoop_eq (rest : List (Field a)) (pre : List (zap.Field a)) :
    convertFieldsLoop rest pre.length (pre ++ List.replicate rest.length zap.Field.zero)
      = (rest.mapM convertField).map (fun zs => pre ++ zs) := by
  induction rest generalizing pre with
  | nil =>
    rw [List.mapM_nil]
    simp [convertFieldsLoop, Except.map, pure, Except.pure]
  | cons f rest ih =>
    rw [List.mapM_cons]
    cases hf : convertField f with
    | error p => simp [convertFieldsLoop, hf, Except.map, bind, Except.bind]
    | ok z =>
      have hset : (pre ++ List.replicate (f :: rest).length zap.Field.zero).set pre.length z
          = (pre ++ [z]) ++ List.replicate rest.length zap.Field.zero := by
        simp [List.replicate_succ, List.set_append_right]
      have hlen : pre.length + 1 = (pre ++ [z]).length := by simp
      simp only [convertFieldsLoop, hf]
      rw [hset, hlen, ih (pre ++ [z])]
      cases hr : rest.mapM convertField <;>
        simp [Except.map, bind, Except.bind, pure, Except.pure]

/-- Element-wise reading of a monadic map over the panic monad. -/
theorem mapM_convertField_spec (fs : List (Field a)) :
    match fs.mapM convertField with
    | .ok zs => zs.length = fs.length ∧
        ∀ i : Nat, (zs[i]?).map Except.ok = (fs[i]?).map convertField
    | .error p => ∃ f ∈ fs, convertField f = .error p := by
  induction fs with
  | nil =>
    rw [List.mapM_nil]
    simp [pure, Except.pure]
  | cons f rest ih =>
    rw [List.mapM_cons]
    cases hf : convertField f with
    | error p => simp [bind, Except.bind, hf]
    | ok z =>
      cases hr : rest.mapM convertField with
      | error p =>
        rw [hr] at ih
        obtain ⟨g, hg, hgp⟩ := ih
        simp only [bind, Except.bind]
        exact ⟨g, List.mem_cons_of_mem _ hg, hgp⟩
      | ok zs =>
        rw [hr] at ih
        simp only [bind, Except.bind, pure, Except.pure]
        refine ⟨by simp [ih.1], ?_⟩
        intro i
        cases i with
        | zero => simp [hf]
        | succ j => simpa using ih.2 j

end convertFieldsLemmas

/-- C2 (order preservation).  `convertFields fs` is the element-wise map of
`convertField` over `fs`: when it returns, the result has exactly `fs.length` elements
and element `i` is the conversion of `fs[i]` for every index `i`; it panics only when
the conversion of some element of `fs` panics; the empty list converts to the empty
list. -/
theorem convertFields_preserves_order {a : Arch} (fs : List (Field a)) :
    convertFields fs = fs.mapM convertField ∧
    (match convertFields fs with
      | .ok zs => zs.length = fs.length ∧
          ∀ i : Nat, (zs[i]?).map Except.ok = (fs[i]?).map convertField
      | .error p => ∃ f ∈ fs, convertField f = .error p) ∧
    convertFields ([] : List (Field a)) = .ok [] := by
  have h : convertFields fs = fs.mapM convertField := by
    have := convertFieldsLoop_eq fs []
    simp only [List.length_nil, List.nil_append] at this
    unfold convertFields
    rw [this]
    cases fs.mapM convertField <;> rfl
  refine ⟨h, ?_, rfl⟩
  rw [h]
  exact mapM_convertField_spec fs

/-! ## Round trip through the converter -/

section roundTripLemmas
variable {a : Arch}

/-- Narrowing a widened value gives the value back. -/
theorem toSint_widen64 {w : Nat} (hw : w ≤ 64) (hpos : 0 < w) (v : sint w) :
    toSint w (widen64 hw v).val = v := by
  apply Subtype.ext
  exact wrap_of_inRange w v.val hpos v.property

theorem assertError_toIface (e : error a) (h : e ≠ none) :
    assertError (error.toIface e) = .ok e := by
  cases e with
  | none => exact absurd rfl h
  | some v =>
    obtain ⟨v, hv⟩ := v
    simp [error.toIface, assertError, hv]

theorem assertStringer_toIface (s : fmt.Stringer a) (h : s ≠ none) :
    assertStringer (fmt.Stringer.toIface s) = .ok s := by
  cases s with
  | none => exact absurd rfl h
  | some v =>
    obtain ⟨v, hv⟩ := v
    simp [fmt.Stringer.toIface, assertStringer, hv]

end roundTripLemmas

/-- Conversion of a constructor-made field: unless the call is `Stringer` with a nil
argument, the converter returns the same-named zap constructor on the same arguments. -/
theorem convertField_field {a : Arch} (c : CtorCall a)
    (h : ∀ key, c ≠ CtorCall.Stringer key none) :
    convertField c.field = .ok c.zapCall := by
  cases c with
  | Int key val =>
    show Except.ok (zap.Field.Int key (toSint a.intSize (widen64 a.intSize_le val).val)) = _
    rw [toSint_widen64 a.intSize_le a.intSize_pos]
    rfl
  | Int32 key val =>
    show Except.ok (zap.Field.Int32 key (toSint 32 (widen64 (by decide) val).val)) = _
    rw [toSint_widen64 (by decide) (by decide)]
    rfl
  | Int16 key val =>
    show Except.ok (zap.Field.Int16 key (toSint 16 (widen64 (by decide) val).val)) = _
    rw [toSint_widen64 (by decide) (by decide)]
    rfl
  | Int8 key val =>
    show Except.ok (zap.Field.Int8 key (toSint 8 (widen64 (by decide) val).val)) = _
    rw [toSint_widen64 (by decide) (by decide)]
    rfl
  | Error err =>
    cases err with
    | none => rfl
    | some e =>
      have hne : (some e : error a) ≠ none := by simp
      have hi : error.toIface (some e) ≠ none := by simp [error.toIface]
      show convertField (Log.Error (some e)) = _
      simp only [Log.Error, if_neg hne]
      show (if error.toIface (some e) = none then Except.ok (zap.Field.Error none)
        else (assertError (error.toIface (some e))).map zap.Field.Error) = _
      rw [if_neg hi, assertError_toIface _ hne]
      rfl
  | Stringer key val =>
    have hne : val ≠ none := fun hv => h key (by rw [hv])
    show (assertStringer (fmt.Stringer.toIface val)).map (zap.Field.Stringer key) = _
    rw [assertStringer_toIface _ hne]
    rfl
  | _ => rfl

/-- The converter panics on `Stringer(key, nil)`: the nil `fmt.Stringer` is stored as a
nil interface, and a type assertion on a nil interface fails. -/
theorem convertField_Stringer_nil {a : Arch} (key : string) :
    convertField (Stringer key none : Field a)
      = .error (Panic.interfaceConversion "fmt.Stringer") := rfl

/-- C1 (round trip, amended).  For every constructor call other than `Stringer` with a
nil `fmt.Stringer`, converting the returned `Field` gives the wrapped library's field
built by the same-named constructor from the same arguments, so it carries the value
that was passed; it carries the key of the `Field`, except for `Error(nil)`, whose
conversion `zap.Error(nil)` is the no-op field without a key. -/
theorem convertField_roundTrip {a : Arch} (c : CtorCall a)
    (h : ∀ key, c ≠ CtorCall.Stringer key none) :
    convertField c.field = .ok c.zapCall ∧
    c.zapCall.Key = (if c = CtorCall.Error none then "" else c.field.Key) := by
  refine ⟨convertField_field c h, ?_⟩
  cases c with
  | Error err =>
    cases err with
    | none => rfl
    | some e => simp [CtorCall.zapCall, CtorCall.field, zap.Field.Key, Log.Error]
  | _ => rfl

/-- C1, instance: the `int8` value -128 under key "k" survives the round trip. -/
theorem convertField_roundTrip_witness :
    (∀ key, (CtorCall.Int8 "k" ⟨-128, by norm_num⟩ : CtorCall Arch.bits64)
        ≠ CtorCall.Stringer key none) ∧
    (convertField (CtorCall.Int8 "k" ⟨-128, by norm_num⟩ : CtorCall Arch.bits64).field
        = .ok (CtorCall.Int8 "k" ⟨-128, by norm_num⟩ : CtorCall Arch.bits64).zapCall ∧
      (CtorCall.Int8 "k" ⟨-128, by norm_num⟩ : CtorCall Arch.bits64).zapCall.Key
        = (if (CtorCall.Int8 "k" ⟨-128, by norm_num⟩ : CtorCall Arch.bits64)
              = CtorCall.Error none then ""
           else (CtorCall.Int8 "k" ⟨-128, by norm_num⟩ : CtorCall Arch.bits64).field.Key)) :=
  ⟨fun _ hc => (by cases hc),
   convertField_roundTrip (CtorCall.Int8 "k" ⟨-128, by norm_num⟩)
     (fun _ hc => by cases hc)⟩

/-- C1 as stated fails at two inputs: `Stringer("k", nil)` stores a nil interface, on
which the assertion to `fmt.Stringer` panics, so no zap field is produced; and
`Error(nil)` has key "error" while its conversion `zap.Error(nil)` carries no key. -/
theorem convertField_roundTrip_counterexample :
    convertField (Stringer "k" none : Field Arch.bits64)
      = .error (Panic.interfaceConversion "fmt.Stringer") ∧
    convertField (Error none : Field Arch.bits64) = .ok (zap.Field.Error none) ∧
    (zap.Field.Error none : zap.Field Arch.bits64).Key
      ≠ (Error none : Field Arch.bits64).Key := by
  refine ⟨rfl, rfl, ?_⟩
  decide

/-- C3 (`Error(nil)` is safe).  Given a nil error, `Error` returns the field with key
"error", type `ErrorType` and a nil `Interface` (the other slots zero), and converting
that field does not panic: it returns `zap.Error(nil)`. -/
theorem Error_nil_safe {a : Arch} :
    (Error none : Field a)
      = { Key := "error", Type_ := ErrorType, Integer := int64.zero, String := "",
          Interface := none } ∧
    convertField (Error none : Field a) = .ok (zap.Field.Error none) :=
  ⟨rfl, rfl⟩

/-- C4 (conversion of constructor-made fields).  The field returned by a constructor
call fails to convert exactly when the call is `Stringer(key, nil)`: there the
assertion `f.Interface.(fmt.Stringer)` panics on the nil interface, while a nil
`[]byte`, a nil `error` and a nil `interface{}` convert. -/
theorem convertField_ctor_panics_iff {a : Arch} (c : CtorCall a) :
    ((∃ p, convertField c.field = .error p) ↔ ∃ key, c = CtorCall.Stringer key none) ∧
    convertField (Stringer "k" none : Field a)
      = .error (Panic.interfaceConversion "fmt.Stringer") ∧
    convertField (ByteString "k" none : Field a) = .ok (zap.Field.ByteString "k" none) ∧
    convertField (Error none : Field a) = .ok (zap.Field.Error none) ∧
    convertField (Any "k" none : Field a) = .ok (zap.Field.Any "k" none) := by
  refine ⟨⟨?_, ?_⟩, rfl, rfl, rfl, rfl⟩
  · rintro ⟨p, hp⟩
    by_contra hc
    have hne : ∀ key, c ≠ CtorCall.Stringer key none := fun key hk => hc ⟨key, hk⟩
    rw [convertField_field c hne] at hp
    cases hp
  · rintro ⟨key, rfl⟩
    exact ⟨_, convertField_Stringer_nil key⟩

/-- C5 (unknown kinds degrade to Any).  A field whose `Type` is `UnknownType` or any
value from 21 to 255 converts without panic to `zap.Any(f.Key, f.Interface)`, whatever
its slots hold: the same result as for the field with `Type` replaced by `AnyType`. -/
theorem convertField_unknown {a : Arch} (f : Field a)
    (h : f.Type_ = UnknownType ∨ 21 ≤ f.Type_.val) :
    convertField f = .ok (zap.Field.Any f.Key f.Interface) ∧
    convertField f = convertField { f with Type_ := AnyType } := by
  have h1 : convertField f = .ok (zap.Field.Any f.Key f.Interface) :=
    convertField_of_default f h
  exact ⟨h1, h1.trans rfl⟩

/-- C5, instance: a hand-built field of kind 200 holding a `bool` in `Interface`. -/
theorem convertField_unknown_witness :
    (({ Key := "k", Type_ := 200, Interface := some (Value.bool true) } : Field Arch.bits64).Type_
        = UnknownType ∨
      21 ≤ ({ Key := "k", Type_ := 200, Interface := some (Value.bool true) }
        : Field Arch.bits64).Type_.val) ∧
    (convertField ({ Key := "k", Type_ := 200, Interface := some (Value.bool true) }
        : Field Arch.bits64)
      = .ok (zap.Field.Any
          ({ Key := "k", Type_ := 200, Interface := some (Value.bool true) }
            : Field Arch.bits64).Key
          ({ Key := "k", Type_ := 200, Interface := some (Value.bool true) }
            : Field Arch.bits64).Interface) ∧
     convertField ({ Key := "k", Type_ := 200, Interface := some (Value.bool true) }
        : Field Arch.bits64)
      = convertField { ({ Key := "k", Type_ := 200, Interface := some (Value.bool true) }
        : Field Arch.bits64) with Type_ := AnyType }) :=
  ⟨Or.inr (by decide), convertField_unknown _ (Or.inr (by decide))⟩

/-- C6 (constructor postcondition).  Every constructor returns the field with the given
key (`Error`: the fixed key "error"), the `FieldType` member named after it, the value
in the slot of that kind (`String`; `Integer`, holding the same number after the
sign-extending conversion to `int64`; or `Interface`), and the two other slots at their
zero values. -/
theorem constructor_postcondition {a : Arch} (key : string) :
    (∀ val : string, (String key val : Field a) = ⟨key, StringType, int64.zero, val, none⟩) ∧
    (∀ val : int64, (Int64 key val : Field a) = ⟨key, Int64Type, val, "", none⟩) ∧
    (∀ val : int a, ∃ n : int64, n.val = val.val ∧
      (Int key val : Field a) = ⟨key, IntType, n, "", none⟩) ∧
    (∀ val : int32, ∃ n : int64, n.val = val.val ∧
      (Int32 key val : Field a) = ⟨key, Int32Type, n, "", none⟩) ∧
    (∀ val : int16, ∃ n : int64, n.val = val.val ∧
      (Int16 key val : Field a) = ⟨key, Int16Type, n, "", none⟩) ∧
    (∀ val : int8, ∃ n : int64, n.val = val.val ∧
      (Int8 key val : Field a) = ⟨key, Int8Type, n, "", none⟩) ∧
    (∀ val : time.Duration,
      (Duration key val : Field a) = ⟨key, DurationType, val, "", none⟩) ∧
    (∀ val : uint64, (Uint64 key val : Field a)
      = ⟨key, Uint64Type, int64.zero, "", some (Value.uint64 val)⟩) ∧
    (∀ val : uint32, (Uint32 key val : Field a)
      = ⟨key, Uint32Type, int64.zero, "", some (Value.uint32 val)⟩) ∧
    (∀ val : uint16, (Uint16 key val : Field a)
      = ⟨key, Uint16Type, int64.zero, "", some (Value.uint16 val)⟩) ∧
    (∀ val : uint8, (Uint8 key val : Field a)
      = ⟨key, Uint8Type, int64.zero, "", some (Value.uint8 val)⟩) ∧
    (∀ val : uint a, (Uint key val : Field a)
      = ⟨key, UintType, int64.zero, "", some (Value.uint val)⟩) ∧
    (∀ val : float64, (Float64 key val : Field a)
      = ⟨key, Float64Type, int64.zero, "", some (Value.float64 val)⟩) ∧
    (∀ val : float32, (Float32 key val : Field a)
      = ⟨key, Float32Type, int64.zero, "", some (Value.float32 val)⟩) ∧
    (∀ val : bool, (Bool key val : Field a)
      = ⟨key, BoolType, int64.zero, "", some (Value.bool val)⟩) ∧
    (∀ val : time.Time, (Time key val : Field a)
      = ⟨key, TimeType, int64.zero, "", some (Value.time val)⟩) ∧
    (∀ val : bytes, (ByteString key val : Field a)
      = ⟨key, ByteStringType, int64.zero, "", some (Value.bytes val)⟩) ∧
    (∀ val : fmt.Stringer a, (Stringer key val : Field a)
      = ⟨key, StringerType, int64.zero, "", val.map Subtype.val⟩) ∧
    (∀ val : iface a, (Any key val : Field a) = ⟨key, AnyType, int64.zero, "", val⟩) ∧
    (∀ err : error a, (Error err : Field a)
      = ⟨"error", ErrorType, int64.zero, "", err.map Subtype.val⟩) := by
  refine ⟨fun _ => rfl, fun _ => rfl, fun _ => ⟨_, widen64_val _ _, rfl⟩,
    fun _ => ⟨_, widen64_val _ _, rfl⟩, fun _ => ⟨_, widen64_val _ _, rfl⟩,
    fun _ => ⟨_, widen64_val _ _, rfl⟩, fun _ => rfl, fun _ => rfl, fun _ => rfl,
    fun _ => rfl, fun _ => rfl, fun _ => rfl, fun _ => rfl, fun _ => rfl, fun _ => rfl,
    fun _ => rfl, fun _ => rfl, fun _ => rfl, fun _ => rfl, ?_⟩
  intro err
  cases err <;> rfl

/-! ## The adapter -/

/-- C7 as stated fails: with a hand-built `Uint64Type` field whose `Interface` is nil,
and likewise with the field of `Stringer("k", nil)`, `Info` panics while its argument
`convertFields(fs)` is evaluated, so the wrapped logger receives no call at all. -/
theorem adapter_delegates_counterexample :
    zapLoggerAdapter.example.Info "m" [{ Key := "n", Type_ := Uint64Type }]
      = .error (Panic.interfaceConversion "uint64") ∧
    zapLoggerAdapter.example.Info "m" [String "a" "x", Stringer "k" none]
      = .error (Panic.interfaceConversion "fmt.Stringer") ∧
    zapLoggerAdapter.example.logger.received = [] :=
  ⟨rfl, rfl, rfl⟩

/-- C7 (delegation to the matching level, amended).  For each of the six adapter
methods, every message and every field list: when `convertFields(fs)` returns, the
call makes exactly one call on the wrapped logger, to the method of the same name,
with the unchanged message and the converted fields; when `convertFields(fs)` panics,
the method panics the same way and no call is made. -/
theorem adapter_delegates_same_level {a : Arch} :
    Delegates (zapLoggerAdapter.Debug : zapLoggerAdapter a → _) zap.Method.Debug ∧
    Delegates (zapLoggerAdapter.Info : zapLoggerAdapter a → _) zap.Method.Info ∧
    Delegates (zapLoggerAdapter.Warn : zapLoggerAdapter a → _) zap.Method.Warn ∧
    Delegates (zapLoggerAdapter.Error : zapLoggerAdapter a → _) zap.Method.Error ∧
    Delegates (zapLoggerAdapter.Panic : zapLoggerAdapter a → _) zap.Method.Panic ∧
    Delegates (zapLoggerAdapter.Fatal : zapLoggerAdapter a → _) zap.Method.Fatal := by
  refine ⟨?_, ?_, ?_, ?_, ?_, ?_⟩ <;> intro z msg fs
  · unfold zapLoggerAdapter.Debug
    cases convertFields fs <;> simp [zap.Logger.Debug, zap.Logger.receive]
  · unfold zapLoggerAdapter.Info
    cases convertFields fs <;> simp [zap.Logger.Info, zap.Logger.receive]
  · unfold zapLoggerAdapter.Warn
    cases convertFields fs <;> simp [zap.Logger.Warn, zap.Logger.receive]
  · unfold zapLoggerAdapter.Error
    cases convertFields fs <;> simp [zap.Logger.Error, zap.Logger.receive]
  · unfold zapLoggerAdapter.Panic
    cases convertFields fs <;> simp [zap.Logger.Panic, zap.Logger.receive]
  · unfold zapLoggerAdapter.Fatal
    cases convertFields fs <;> simp [zap.Logger.Fatal, zap.Logger.receive]

/-! ## Mismatched payloads -/

/-- C8 as stated fails: a field of kind `StringType` whose payload sits in `Interface`,
a field of kind `Int64Type` holding a `bool`, and a field of kind `ErrorType` whose
payload sits in `String` all convert without a panic. -/
theorem convertField_mismatch_counterexample :
    convertField ({ Key := "k", Type_ := StringType, Interface := some (Value.uint64 7) }
        : Field Arch.bits64) = .ok (zap.Field.String "k" "") ∧
    convertField ({ Key := "k", Type_ := Int64Type, Interface := some (Value.bool true) }
        : Field Arch.bits64) = .ok (zap.Field.Int64 "k" int64.zero) ∧
    convertField ({ Key := "k", Type_ := ErrorType, String := "boom" }
        : Field Arch.bits64) = .ok (zap.Field.Error none) :=
  ⟨rfl, rfl, rfl⟩

/-- C8 (amended).  For a field whose kind is read through a type assertion (`Uint64`,
`Uint32`, `Uint16`, `Uint8`, `Uint`, `Float64`, `Float32`, `Bool`, `Error`, `Time`,
`ByteString`, `Stringer`) and whose `Interface` payload does not have the type of that
kind, the converter panics instead of returning a field. -/
theorem convertField_mismatch_panics {a : Arch} (f : Field a)
    (hk : f.Type_ ∈ assertedKinds) (hm : payloadMatches f.Type_ f.Interface = false) :
    ∃ p, convertField f = .error p := by
  obtain ⟨k, t, i, s, x⟩ := f
  simp only [assertedKinds, List.mem_cons, List.mem_singleton, List.not_mem_nil,
    or_false] at hk
  rcases hk with h | h | h | h | h | h | h | h | h | h | h | h <;> subst h
  all_goals
    cases x with
    | none => first | exact ⟨_, rfl⟩ | exact absurd (show true = false from hm) (by decide)
    | some v =>
      cases v with
      | other T r =>
        first
        | exact ⟨_, rfl⟩
        | (have hT : T.hasError = false := hm
           refine ⟨Panic.interfaceConversion "error", ?_⟩
           rw [convertField_of_ErrorType _ rfl]
           simp [assertError, Value.implementsError, hT, Except.map])
        | (have hT : T.hasString = false := hm
           refine ⟨Panic.interfaceConversion "fmt.Stringer", ?_⟩
           rw [convertField_of_StringerType _ rfl]
           simp [assertStringer, Value.implementsStringer, hT, Except.map])
      | _ => first | exact ⟨_, rfl⟩ | exact absurd (show true = false from hm) (by decide)

/-- C8, instance: a `Uint64Type` field holding a `uint32`. -/
theorem convertField_mismatch_panics_witness :
    (({ Key := "k", Type_ := Uint64Type, Interface := some (Value.uint32 7) }
        : Field Arch.bits64).Type_ ∈ assertedKinds ∧
      payloadMatches
        ({ Key := "k", Type_ := Uint64Type, Interface := some (Value.uint32 7) }
          : Field Arch.bits64).Type_
        ({ Key := "k", Type_ := Uint64Type, Interface := some (Value.uint32 7) }
          : Field Arch.bits64).Interface = false) ∧
    ∃ p, convertField ({ Key := "k", Type_ := Uint64Type, Interface := some (Value.uint32 7) }
        : Field Arch.bits64) = .error p :=
  ⟨⟨by decide, by decide⟩,
   convertField_mismatch_panics _ (by decide) (by decide)⟩

/-! ## Logger construction -/

section getLogger
variable {a : Arch}

/-- When the open fails, `GetLogger` hands the error on and returns no logger. -/
theorem GetLogger_of_open_error (env : os.Env a) (level : LoggingLevel)
    (disableLogToConsole : bool) (filename : string)
    (v : {v : Value a // v.implementsError = true})
    (h : (env.OpenFile filename [.O_APPEND, .O_CREATE, .O_WRONLY] 0o644).2 = some v) :
    GetLogger env level disableLogToConsole filename = (none, some v) := by
  unfold GetLogger
  rcases hr : env.OpenFile filename [.O_APPEND, .O_CREATE, .O_WRONLY] 0o644 with ⟨logFile, err⟩
  rw [hr] at h
  simp only at h
  subst h
  simp

/-- When the open succeeds, `GetLogger` returns the adapter of a logger whose core is a
tee of the JSON file core and, unless the console is disabled, the console core on
standard output, all at the level selected by `level`. -/
theorem GetLogger_of_open_ok (env : os.Env a) (level : LoggingLevel)
    (disableLogToConsole : bool) (filename : string)
    (h : (env.OpenFile filename [.O_APPEND, .O_CREATE, .O_WRONLY] 0o644).2 = none) :
    GetLogger env level disableLogToConsole filename =
      (some (NewZapAdapter
        { core := zapcore.Core.NewTee
            (zapcore.Core.NewCore
                (.NewJSONEncoder { EncodeTime := .ISO8601TimeEncoder })
                (.AddSync (env.OpenFile filename [.O_APPEND, .O_CREATE, .O_WRONLY] 0o644).1)
                (if level = Production then .InfoLevel else .DebugLevel) ::
              (if disableLogToConsole = true then []
               else [zapcore.Core.NewCore
                (.NewConsoleEncoder { EncodeTime := .ISO8601TimeEncoder })
                (.AddSync (some os.Stdout))
                (if level = Production then .InfoLevel else .DebugLevel)])),
          options := [.AddCaller, .AddStacktrace .ErrorLevel, .AddCallerSkip 1],
          received := [] }), none) := by
  unfold GetLogger
  rcases hr : env.OpenFile filename [.O_APPEND, .O_CREATE, .O_WRONLY] 0o644 with ⟨logFile, err⟩
  rw [hr] at h
  simp only at h
  subst h
  cases disableLogToConsole <;>
    simp [NewZapAdapter, zap.New, zap.Logger.WithOptions, zap.NewProductionEncoderConfig]

end getLogger

/-- C9 (`GetLogger` fails exactly when the file cannot be opened).  The file is opened
with append, create and write-only at mode 0644; if that fails with error `e` the
result is a nil `Logger` and `e`, otherwise a non-nil `Logger` and a nil error; the
`Logger` is nil if and only if the error is non-nil. -/
theorem GetLogger_fails_iff_open_fails {a : Arch} (env : os.Env a) (level : LoggingLevel)
    (disableLogToConsole : bool) (filename : string) :
    (match (env.OpenFile filename [.O_APPEND, .O_CREATE, .O_WRONLY] 0o644).2 with
      | some e => GetLogger env level disableLogToConsole filename = (none, some e)
      | none => ∃ z, GetLogger env level disableLogToConsole filename = (some z, none)) ∧
    ((GetLogger env level disableLogToConsole filename).1 = none ↔
      (GetLogger env level disableLogToConsole filename).2 ≠ none) := by
  cases h : (env.OpenFile filename [.O_APPEND, .O_CREATE, .O_WRONLY] 0o644).2 with
  | some e =>
    have hg := GetLogger_of_open_error env level disableLogToConsole filename e h
    exact ⟨hg, by simp [hg]⟩
  | none =>
    have hg := GetLogger_of_open_ok env level disableLogToConsole filename h
    exact ⟨⟨_, hg⟩, by simp [hg]⟩

/-- C10 (level selection).  When the file opens, the logger is built from at least one
sink, and every sink it is built from has the same minimum level: `InfoLevel` if
`level` is `Production` (0), `DebugLevel` for every other value of `level`. -/
theorem GetLogger_level_selection {a : Arch} (env : os.Env a) (level : LoggingLevel)
    (disableLogToConsole : bool) (filename : string)
    (h : (env.OpenFile filename [.O_APPEND, .O_CREATE, .O_WRONLY] 0o644).2 = none) :
    ∃ z, GetLogger env level disableLogToConsole filename = (some z, none) ∧
      z.logger.core.sinks ≠ [] ∧
      ∀ c ∈ z.logger.core.sinks,
        c.enab = (if level.val = 0 then zapcore.Level.InfoLevel
                  else zapcore.Level.DebugLevel) := by
  refine ⟨_, GetLogger_of_open_ok env level disableLogToConsole filename h, ?_, ?_⟩
  · cases disableLogToConsole <;>
      simp [NewZapAdapter, zapcore.Core.sinks, zapcore.Core.sinksOfList]
  · have hl : (level = Production) ↔ level.val = 0 := by
      simp [Production, Fin.ext_iff]
    intro c hc
    cases disableLogToConsole <;>
      simp [NewZapAdapter, zapcore.Core.sinks, zapcore.Core.sinksOfList] at hc
    · rcases hc with hc | hc <;> rw [hc] <;> simp [hl]
    · rw [hc]
      simp [hl]

/-- C10, instance: with `Development` and the console enabled, in an environment where
the open succeeds. -/
theorem GetLogger_level_selection_witness :
    (os.Env.allOpen.OpenFile "app.log" [.O_APPEND, .O_CREATE, .O_WRONLY] 0o644).2 = none ∧
    ∃ z, GetLogger os.Env.allOpen Development false "app.log" = (some z, none) ∧
      z.logger.core.sinks ≠ [] ∧
      ∀ c ∈ z.logger.core.sinks,
        c.enab = (if Development.val = 0 then zapcore.Level.InfoLevel
                  else zapcore.Level.DebugLevel) :=
  ⟨rfl, GetLogger_level_selection os.Env.allOpen Development false "app.log" rfl⟩

/-- C11 as stated fails: in an environment where opening "/dev/stdout" hands back the
standard-output handle, the logger built with the console disabled has a sink on
`os.Stdout`, namely its JSON file sink. -/
theorem GetLogger_console_suppression_counterexample :
    (os.Env.stdoutOpen.OpenFile "/dev/stdout" [.O_APPEND, .O_CREATE, .O_WRONLY] 0o644).2
      = none ∧
    ∃ z, GetLogger os.Env.stdoutOpen Production true "/dev/stdout" = (some z, none) ∧
      ∃ c, z.logger.core.sinks = [c] ∧ c.isJSON = true ∧
        c.ws = zapcore.WriteSyncer.AddSync (some os.Stdout) :=
  ⟨rfl, _, rfl, _, rfl, rfl, rfl⟩

/-- C11 (console suppression, amended).  When the file opens: with
`disableLogToConsole` true the logger is built from exactly one sink, the JSON sink
writing to the opened file; it has no console-encoded sink, and no sink on `os.Stdout`
unless the opened file is itself the standard-output handle.  With it false the logger
is built from exactly two sinks, the JSON sink on the opened file followed by the
console-encoded sink on `os.Stdout`. -/
theorem GetLogger_console_suppression {a : Arch} (env : os.Env a) (level : LoggingLevel)
    (disableLogToConsole : bool) (filename : string)
    (h : (env.OpenFile filename [.O_APPEND, .O_CREATE, .O_WRONLY] 0o644).2 = none) :
    ∃ z, GetLogger env level disableLogToConsole filename = (some z, none) ∧
      match disableLogToConsole with
      | true => ∃ c, z.logger.core.sinks = [c] ∧ c.isJSON = true ∧ c.isConsole = false ∧
          c.ws = .AddSync (env.OpenFile filename [.O_APPEND, .O_CREATE, .O_WRONLY] 0o644).1 ∧
          (∀ c' ∈ z.logger.core.sinks, c'.ws = .AddSync (some os.Stdout) →
            (env.OpenFile filename [.O_APPEND, .O_CREATE, .O_WRONLY] 0o644).1
              = some os.Stdout)
      | false => ∃ c₁ c₂, z.logger.core.sinks = [c₁, c₂] ∧
          c₁.isJSON = true ∧
          c₁.ws = .AddSync (env.OpenFile filename [.O_APPEND, .O_CREATE, .O_WRONLY] 0o644).1 ∧
          c₂.isConsole = true ∧ c₂.ws = .AddSync (some os.Stdout) := by
  refine ⟨_, GetLogger_of_open_ok env level disableLogToConsole filename h, ?_⟩
  cases disableLogToConsole
  · exact ⟨_, _, rfl, rfl, rfl, rfl, rfl⟩
  · refine ⟨_, rfl, rfl, rfl, rfl, ?_⟩
    intro c' hc' hws
    have hc : c' = _ := List.mem_singleton.mp hc'
    rw [hc] at hws
    exact zapcore.WriteSyncer.AddSync.inj hws

/-- C11, instance: console disabled at `Production`, in an environment where the open
succeeds with a handle other than standard output. -/
theorem GetLogger_console_suppression_witness :
    (os.Env.allOpen.OpenFile "app.log" [.O_APPEND, .O_CREATE, .O_WRONLY] 0o644).2 = none ∧
    ∃ z, GetLogger os.Env.allOpen Production true "app.log" = (some z, none) ∧
      ∃ c, z.logger.core.sinks = [c] ∧ c.isJSON = true ∧ c.isConsole = false ∧
        c.ws = .AddSync
          (os.Env.allOpen.OpenFile "app.log" [.O_APPEND, .O_CREATE, .O_WRONLY] 0o644).1 ∧
        (∀ c' ∈ z.logger.core.sinks, c'.ws = .AddSync (some os.Stdout) →
          (os.Env.allOpen.OpenFile "app.log" [.O_APPEND, .O_CREATE, .O_WRONLY] 0o644).1
            = some os.Stdout) :=
  ⟨rfl, GetLogger_console_suppression os.Env.allOpen Production true "app.log" rfl⟩

/-! ## The sugared logger -/

/-- C12 as stated fails: the interface `SugaredLogger` has no method that logs at the
fatal level; the level of its one method is the panic level. -/
theorem SugaredLogger_no_fatal_counterexample :
    SugaredLogger.filter (fun m => decide (m.level = some zapcore.Level.FatalLevel)) = [] ∧
    SugaredLogger.map MethodSig.level = [some zapcore.Level.PanicLevel] := by
  decide

/-- C12 (amended).  The interface `SugaredLogger`, as which `Sugar()` returns the
wrapped logger's sugared logger, offers exactly one operation, `Panicf`: it is
printf-style (a template and variadic arguments) and logs at the panic level. -/
theorem SugaredLogger_offers_Panicf {a : Arch} (z : zapLoggerAdapter a) :
    z.Sugar = z.logger.Sugar ∧
    ∃ m, SugaredLogger = [m] ∧ m.name = "Panicf" ∧ m.isPrintfStyle = true ∧
      m.level = some zapcore.Level.PanicLevel :=
  ⟨rfl, _, rfl, rfl, rfl, rfl⟩

/-! ## The exact panic condition -/

section panicCondition
variable {a : Arch}

/-- Every kind tag is one of the twenty named kinds or falls to the default case. -/
theorem kind_cases (t : FieldType) :
    t = StringType ∨ t = Int64Type ∨ t = IntType ∨ t = Int32Type ∨ t = Int16Type ∨
    t = Int8Type ∨ t = Uint64Type ∨ t = Uint32Type ∨ t = Uint16Type ∨ t = Uint8Type ∨
    t = UintType ∨ t = Float64Type ∨ t = Float32Type ∨ t = BoolType ∨ t = ErrorType ∨
    t = DurationType ∨ t = TimeType ∨ t = ByteStringType ∨ t = StringerType ∨ t = AnyType ∨
    (t = UnknownType ∨ 21 ≤ t.val) := by
  obtain ⟨n, hn⟩ := t
  simp only [Fin.ext_iff, UnknownType, StringType, Int64Type, IntType, Int32Type, Int16Type, Int8Type, Uint64Type, Uint32Type,
    Uint16Type, Uint8Type, UintType, Float64Type, Float32Type, BoolType, ErrorType, DurationType,
    TimeType, ByteStringType, StringerType, AnyType]
  simp
  omega

/-- The assertion of the `Uint64Type` case fails exactly on a nil interface or another
dynamic type. -/
theorem assertUint64_map_error_iff {β : Type} (g : _ → β) (x : iface a) :
    (∃ p, (assertUint64 x).map g = .error p) ↔ ¬ ∃ v, x = some (Value.uint64 v) := by
  cases x with
  | none => simp [assertUint64, Except.map]
  | some v => cases v <;> simp [assertUint64, Except.map]

/-- The assertion of the `Uint32Type` case fails exactly on a nil interface or another
dynamic type. -/
theorem assertUint32_map_error_iff {β : Type} (g : _ → β) (x : iface a) :
    (∃ p, (assertUint32 x).map g = .error p) ↔ ¬ ∃ v, x = some (Value.uint32 v) := by
  cases x with
  | none => simp [assertUint32, Except.map]
  | some v => cases v <;> simp [assertUint32, Except.map]

/-- The assertion of the `Uint16Type` case fails exactly on a nil interface or another
dynamic type. -/
theorem assertUint16_map_error_iff {β : Type} (g : _ → β) (x : iface a) :
    (∃ p, (assertUint16 x).map g = .error p) ↔ ¬ ∃ v, x = some (Value.uint16 v) := by
  cases x with
  | none => simp [assertUint16, Except.map]
  | some v => cases v <;> simp [assertUint16, Except.map]

/-- The assertion of the `Uint8Type` case fails exactly on a nil interface or another
dynamic type. -/
theorem assertUint8_map_error_iff {β : Type} (g : _ → β) (x : iface a) :
    (∃ p, (assertUint8 x).map g = .error p) ↔ ¬ ∃ v, x = some (Value.uint8 v) := by
  cases x with
  | none => simp [assertUint8, Except.map]
  | some v => cases v <;> simp [assertUint8, Except.map]

/-- The assertion of the `UintType` case fails exactly on a nil interface or another
dynamic type. -/
theorem assertUint_map_error_iff {β : Type} (g : _ → β) (x : iface a) :
    (∃ p, (assertUint x).map g = .error p) ↔ ¬ ∃ v, x = some (Value.uint v) := by
  cases x with
  | none => simp [assertUint, Except.map]
  | some v => cases v <;> simp [assertUint, Except.map]

/-- The assertion of the `Float64Type` case fails exactly on a nil interface or another
dynamic type. -/
theorem assertFloat64_map_error_iff {β : Type} (g : _ → β) (x : iface a) :
    (∃ p, (assertFloat64 x).map g = .error p) ↔ ¬ ∃ v, x = some (Value.float64 v) := by
  cases x with
  | none => simp [assertFloat64, Except.map]
  | some v => cases v <;> simp [assertFloat64, Except.map]

/-- The assertion of the `Float32Type` case fails exactly on a nil interface or another
dynamic type. -/
theorem assertFloat32_map_error_iff {β : Type} (g : _ → β) (x : iface a) :
    (∃ p, (assertFloat32 x).map g = .error p) ↔ ¬ ∃ v, x = some (Value.float32 v) := by
  cases x with
  | none => simp [assertFloat32, Except.map]
  | some v => cases v <;> simp [assertFloat32, Except.map]

/-- The assertion of the `BoolType` case fails exactly on a nil interface or another
dynamic type. -/
theorem assertBool_map_error_iff {β : Type} (g : _ → β) (x : iface a) :
    (∃ p, (assertBool x).map g = .error p) ↔ ¬ ∃ v, x = some (Value.bool v) := by
  cases x with
  | none => simp [assertBool, Except.map]
  | some v => cases v <;> simp [assertBool, Except.map]

/-- The assertion of the `TimeType` case fails exactly on a nil interface or another
dynamic type. -/
theorem assertTime_map_error_iff {β : Type} (g : _ → β) (x : iface a) :
    (∃ p, (assertTime x).map g = .error p) ↔ ¬ ∃ v, x = some (Value.time v) := by
  cases x with
  | none => simp [assertTime, Except.map]
  | some v => cases v <;> simp [assertTime, Except.map]

/-- The assertion of the `ByteStringType` case fails exactly on a nil interface or another
dynamic type. -/
theorem assertBytes_map_error_iff {β : Type} (g : _ → β) (x : iface a) :
    (∃ p, (assertBytes x).map g = .error p) ↔ ¬ ∃ v, x = some (Value.bytes v) := by
  cases x with
  | none => simp [assertBytes, Except.map]
  | some v => cases v <;> simp [assertBytes, Except.map]

/-- The assertion to `fmt.Stringer` fails exactly on a nil interface or a dynamic type
that does not implement it. -/
theorem assertStringer_map_error_iff {β : Type} (g : _ → β) (x : iface a) :
    (∃ p, (assertStringer x).map g = .error p) ↔
      ¬ ∃ v, x = some v ∧ v.implementsStringer = true := by
  cases x with
  | none => simp [assertStringer, Except.map]
  | some v =>
    by_cases hv : v.implementsStringer = true <;> simp [assertStringer, Except.map, hv]

/-- The `ErrorType` case fails exactly on a non-nil interface whose dynamic type does
not implement `error`. -/
theorem assertError_guarded_error_iff {β : Type} (g : _ → β) (b : β) (x : iface a) :
    (∃ p, (if x = none then Except.ok b else (assertError x).map g) = .error p) ↔
      ∃ v, x = some v ∧ v.implementsError = false := by
  cases x with
  | none => simp
  | some v =>
    by_cases hv : v.implementsError = true <;> simp [assertError, Except.map, hv]

end panicCondition

/-- C13 (exact panic condition).  The converter panics if and only if the kind is one
of the eleven kinds read by a type assertion and `Interface` is nil or of another
dynamic type than the asserted one (for `Stringer`: of a type that does not implement
`fmt.Stringer`), or the kind is `ErrorType` and `Interface` is non-nil and does not
implement `error`; for every other field it returns. -/
theorem convertField_panics_iff {a : Arch} (f : Field a) :
    (∃ p, convertField f = .error p) ↔
      (f.Type_ = Uint64Type ∧ ¬ ∃ v, f.Interface = some (Value.uint64 v)) ∨
      (f.Type_ = Uint32Type ∧ ¬ ∃ v, f.Interface = some (Value.uint32 v)) ∨
      (f.Type_ = Uint16Type ∧ ¬ ∃ v, f.Interface = some (Value.uint16 v)) ∨
      (f.Type_ = Uint8Type ∧ ¬ ∃ v, f.Interface = some (Value.uint8 v)) ∨
      (f.Type_ = UintType ∧ ¬ ∃ v, f.Interface = some (Value.uint v)) ∨
      (f.Type_ = Float64Type ∧ ¬ ∃ v, f.Interface = some (Value.float64 v)) ∨
      (f.Type_ = Float32Type ∧ ¬ ∃ v, f.Interface = some (Value.float32 v)) ∨
      (f.Type_ = BoolType ∧ ¬ ∃ v, f.Interface = some (Value.bool v)) ∨
      (f.Type_ = TimeType ∧ ¬ ∃ v, f.Interface = some (Value.time v)) ∨
      (f.Type_ = ByteStringType ∧ ¬ ∃ v, f.Interface = some (Value.bytes v)) ∨
      (f.Type_ = StringerType ∧
        ¬ ∃ v, f.Interface = some v ∧ v.implementsStringer = true) ∨
      (f.Type_ = ErrorType ∧ ∃ v, f.Interface = some v ∧ v.implementsError = false) := by
  rcases kind_cases f.Type_ with h | h | h | h | h | h | h | h | h | h | h | h | h | h | h | h | h | h | h | h | h
  · rw [convertField_of_StringType f h]
    simp [h, StringType, Int64Type, IntType, Int32Type, Int16Type, Int8Type, Uint64Type, Uint32Type,
      Uint16Type, Uint8Type, UintType, Float64Type, Float32Type, BoolType, ErrorType, DurationType,
      TimeType, ByteStringType, StringerType, AnyType]
  · rw [convertField_of_Int64Type f h]
    simp [h, StringType, Int64Type, IntType, Int32Type, Int16Type, Int8Type, Uint64Type, Uint32Type,
      Uint16Type, Uint8Type, UintType, Float64Type, Float32Type, BoolType, ErrorType, DurationType,
      TimeType, ByteStringType, StringerType, AnyType]
  · rw [convertField_of_IntType f h]
    simp [h, StringType, Int64Type, IntType, Int32Type, Int16Type, Int8Type, Uint64Type, Uint32Type,
      Uint16Type, Uint8Type, UintType, Float64Type, Float32Type, BoolType, ErrorType, DurationType,
      TimeType, ByteStringType, StringerType, AnyType]
  · rw [convertField_of_Int32Type f h]
    simp [h, StringType, Int64Type, IntType, Int32Type, Int16Type, Int8Type, Uint64Type, Uint32Type,
      Uint16Type, Uint8Type, UintType, Float64Type, Float32Type, BoolType, ErrorType, DurationType,
      TimeType, ByteStringType, StringerType, AnyType]
  · rw [convertField_of_Int16Type f h]
    simp [h, StringType, Int64Type, IntType, Int32Type, Int16Type, Int8Type, Uint64Type, Uint32Type,
      Uint16Type, Uint8Type, UintType, Float64Type, Float32Type, BoolType, ErrorType, DurationType,
      TimeType, ByteStringType, StringerType, AnyType]
  · rw [convertField_of_Int8Type f h]
    simp [h, StringType, Int64Type, IntType, Int32Type, Int16Type, Int8Type, Uint64Type, Uint32Type,
      Uint16Type, Uint8Type, UintType, Float64Type, Float32Type, BoolType, ErrorType, DurationType,
      TimeType, ByteStringType, StringerType, AnyType]
  · rw [convertField_of_Uint64Type f h]
    rw [assertUint64_map_error_iff]
    simp [h, StringType, Int64Type, IntType, Int32Type, Int16Type, Int8Type, Uint64Type, Uint32Type,
      Uint16Type, Uint8Type, UintType, Float64Type, Float32Type, BoolType, ErrorType, DurationType,
      TimeType, ByteStringType, StringerType, AnyType]
  · rw [convertField_of_Uint32Type f h]
    rw [assertUint32_map_error_iff]
    simp [h, StringType, Int64Type, IntType, Int32Type, Int16Type, Int8Type, Uint64Type, Uint32Type,
      Uint16Type, Uint8Type, UintType, Float64Type, Float32Type, BoolType, ErrorType, DurationType,
      TimeType, ByteStringType, StringerType, AnyType]
  · rw [convertField_of_Uint16Type f h]
    rw [assertUint16_map_error_iff]
    simp [h, StringType, Int64Type, IntType, Int32Type, Int16Type, Int8Type, Uint64Type, Uint32Type,
      Uint16Type, Uint8Type, UintType, Float64Type, Float32Type, BoolType, ErrorType, DurationType,
      TimeType, ByteStringType, StringerType, AnyType]
  · rw [convertField_of_Uint8Type f h]
    rw [assertUint8_map_error_iff]
    simp [h, StringType, Int64Type, IntType, Int32Type, Int16Type, Int8Type, Uint64Type, Uint32Type,
      Uint16Type, Uint8Type, UintType, Float64Type, Float32Type, BoolType, ErrorType, DurationType,
      TimeType, ByteStringType, StringerType, AnyType]
  · rw [convertField_of_UintType f h]
    rw [assertUint_map_error_iff]
    simp [h, StringType, Int64Type, IntType, Int32Type, Int16Type, Int8Type, Uint64Type, Uint32Type,
      Uint16Type, Uint8Type, UintType, Float64Type, Float32Type, BoolType, ErrorType, DurationType,
      TimeType, ByteStringType, StringerType, AnyType]
  · rw [convertField_of_Float64Type f h]
    rw [assertFloat64_map_error_iff]
    simp [h, StringType, Int64Type, IntType, Int32Type, Int16Type, Int8Type, Uint64Type, Uint32Type,
      Uint16Type, Uint8Type, UintType, Float64Type, Float32Type, BoolType, ErrorType, DurationType,
      TimeType, ByteStringType, StringerType, AnyType]
  · rw [convertField_of_Float32Type f h]
    rw [assertFloat32_map_error_iff]
    simp [h, StringType, Int64Type, IntType, Int32Type, Int16Type, Int8Type, Uint64Type, Uint32Type,
      Uint16Type, Uint8Type, UintType, Float64Type, Float32Type, BoolType, ErrorType, DurationType,
      TimeType, ByteStringType, StringerType, AnyType]
  · rw [convertField_of_BoolType f h]
    rw [assertBool_map_error_iff]
    simp [h, StringType, Int64Type, IntType, Int32Type, Int16Type, Int8Type, Uint64Type, Uint32Type,
      Uint16Type, Uint8Type, UintType, Float64Type, Float32Type, BoolType, ErrorType, DurationType,
      TimeType, ByteStringType, StringerType, AnyType]
  · rw [convertField_of_ErrorType f h]
    rw [assertError_guarded_error_iff]
    simp [h, StringType, Int64Type, IntType, Int32Type, Int16Type, Int8Type, Uint64Type, Uint32Type,
      Uint16Type, Uint8Type, UintType, Float64Type, Float32Type, BoolType, ErrorType, DurationType,
      TimeType, ByteStringType, StringerType, AnyType]
  · rw [convertField_of_DurationType f h]
    simp [h, StringType, Int64Type, IntType, Int32Type, Int16Type, Int8Type, Uint64Type, Uint32Type,
      Uint16Type, Uint8Type, UintType, Float64Type, Float32Type, BoolType, ErrorType, DurationType,
      TimeType, ByteStringType, StringerType, AnyType]
  · rw [convertField_of_TimeType f h]
    rw [assertTime_map_error_iff]
    simp [h, StringType, Int64Type, IntType, Int32Type, Int16Type, Int8Type, Uint64Type, Uint32Type,
      Uint16Type, Uint8Type, UintType, Float64Type, Float32Type, BoolType, ErrorType, DurationType,
      TimeType, ByteStringType, StringerType, AnyType]
  · rw [convertField_of_ByteStringType f h]
    rw [assertBytes_map_error_iff]
    simp [h, StringType, Int64Type, IntType, Int32Type, Int16Type, Int8Type, Uint64Type, Uint32Type,
      Uint16Type, Uint8Type, UintType, Float64Type, Float32Type, BoolType, ErrorType, DurationType,
      TimeType, ByteStringType, StringerType, AnyType]
  · rw [convertField_of_StringerType f h]
    rw [assertStringer_map_error_iff]
    simp [h, StringType, Int64Type, IntType, Int32Type, Int16Type, Int8Type, Uint64Type, Uint32Type,
      Uint16Type, Uint8Type, UintType, Float64Type, Float32Type, BoolType, ErrorType, DurationType,
      TimeType, ByteStringType, StringerType, AnyType]
  · rw [convertField_of_AnyType f h]
    simp [h, StringType, Int64Type, IntType, Int32Type, Int16Type, Int8Type, Uint64Type, Uint32Type,
      Uint16Type, Uint8Type, UintType, Float64Type, Float32Type, BoolType, ErrorType, DurationType,
      TimeType, ByteStringType, StringerType, AnyType]
  · rw [convertField_of_default f h]
    have hUint64 : f.Type_ ≠ Uint64Type := fun e => absurd (e ▸ h) (by decide)
    have hUint32 : f.Type_ ≠ Uint32Type := fun e => absurd (e ▸ h) (by decide)
    have hUint16 : f.Type_ ≠ Uint16Type := fun e => absurd (e ▸ h) (by decide)
    have hUint8 : f.Type_ ≠ Uint8Type := fun e => absurd (e ▸ h) (by decide)
    have hUint : f.Type_ ≠ UintType := fun e => absurd (e ▸ h) (by decide)
    have hFloat64 : f.Type_ ≠ Float64Type := fun e => absurd (e ▸ h) (by decide)
    have hFloat32 : f.Type_ ≠ Float32Type := fun e => absurd (e ▸ h) (by decide)
    have hBool : f.Type_ ≠ BoolType := fun e => absurd (e ▸ h) (by decide)
    have hTime : f.Type_ ≠ TimeType := fun e => absurd (e ▸ h) (by decide)
    have hByteString : f.Type_ ≠ ByteStringType := fun e => absurd (e ▸ h) (by decide)
    have hStringer : f.Type_ ≠ StringerType := fun e => absurd (e ▸ h) (by decide)
    have hError : f.Type_ ≠ ErrorType := fun e => absurd (e ▸ h) (by decide)
    simp [hUint64, hUint32, hUint16, hUint8, hUint, hFloat64, hFloat32, hBool, hTime, hByteString, hStringer, hError]

/-! ## The converter reads one slot -/

/-- The default kinds use the `Interface` slot. -/
theorem usedSlot_default (t : FieldType) (h : t = UnknownType ∨ 21 ≤ t.val) :
    usedSlot t = Slot.Interface := by
  obtain ⟨n, hn⟩ := t
  rcases h with h | h
  · have h0 : n = 0 := by simpa [UnknownType, Fin.ext_iff] using h
    subst h0
    rfl
  · obtain ⟨m, rfl⟩ : ∃ m, n = m + 21 := ⟨n - 21, by simp at h; omega⟩
    rfl

/-- C14 (the converter reads only the slot its kind uses).  Two fields with the same
`Type` and the same `Key` that agree on the slot that `Type` uses have the same
conversion outcome: the same zap field or the same panic, whatever their other two
slots hold. -/
theorem convertField_reads_used_slot {a : Arch} (f g : Field a)
    (ht : f.Type_ = g.Type_) (hk : f.Key = g.Key) (hs : f.agreeOn g (usedSlot f.Type_)) :
    convertField f = convertField g := by
  rcases kind_cases f.Type_ with h | h | h | h | h | h | h | h | h | h | h | h | h | h | h | h | h | h | h | h | h
  · have e : f.String = g.String := by rw [h] at hs; exact hs
    rw [convertField_of_StringType f h, convertField_of_StringType g (ht ▸ h), hk, e]
  · have e : f.Integer = g.Integer := by rw [h] at hs; exact hs
    rw [convertField_of_Int64Type f h, convertField_of_Int64Type g (ht ▸ h), hk, e]
  · have e : f.Integer = g.Integer := by rw [h] at hs; exact hs
    rw [convertField_of_IntType f h, convertField_of_IntType g (ht ▸ h), hk, e]
  · have e : f.Integer = g.Integer := by rw [h] at hs; exact hs
    rw [convertField_of_Int32Type f h, convertField_of_Int32Type g (ht ▸ h), hk, e]
  · have e : f.Integer = g.Integer := by rw [h] at hs; exact hs
    rw [convertField_of_Int16Type f h, convertField_of_Int16Type g (ht ▸ h), hk, e]
  · have e : f.Integer = g.Integer := by rw [h] at hs; exact hs
    rw [convertField_of_Int8Type f h, convertField_of_Int8Type g (ht ▸ h), hk, e]
  · have e : f.Interface = g.Interface := by rw [h] at hs; exact hs
    rw [convertField_of_Uint64Type f h, convertField_of_Uint64Type g (ht ▸ h), hk, e]
  · have e : f.Interface = g.Interface := by rw [h] at hs; exact hs
    rw [convertField_of_Uint32Type f h, convertField_of_Uint32Type g (ht ▸ h), hk, e]
  · have e : f.Interface = g.Interface := by rw [h] at hs; exact hs
    rw [convertField_of_Uint16Type f h, convertField_of_Uint16Type g (ht ▸ h), hk, e]
  · have e : f.Interface = g.Interface := by rw [h] at hs; exact hs
    rw [convertField_of_Uint8Type f h, convertField_of_Uint8Type g (ht ▸ h), hk, e]
  · have e : f.Interface = g.Interface := by rw [h] at hs; exact hs
    rw [convertField_of_UintType f h, convertField_of_UintType g (ht ▸ h), hk, e]
  · have e : f.Interface = g.Interface := by rw [h] at hs; exact hs
    rw [convertField_of_Float64Type f h, convertField_of_Float64Type g (ht ▸ h), hk, e]
  · have e : f.Interface = g.Interface := by rw [h] at hs; exact hs
    rw [convertField_of_Float32Type f h, convertField_of_Float32Type g (ht ▸ h), hk, e]
  · have e : f.Interface = g.Interface := by rw [h] at hs; exact hs
    rw [convertField_of_BoolType f h, convertField_of_BoolType g (ht ▸ h), hk, e]
  · have e : f.Interface = g.Interface := by rw [h] at hs; exact hs
    rw [convertField_of_ErrorType f h, convertField_of_ErrorType g (ht ▸ h), e]
  · have e : f.Integer = g.Integer := by rw [h] at hs; exact hs
    rw [convertField_of_DurationType f h, convertField_of_DurationType g (ht ▸ h), hk, e]
  · have e : f.Interface = g.Interface := by rw [h] at hs; exact hs
    rw [convertField_of_TimeType f h, convertField_of_TimeType g (ht ▸ h), hk, e]
  · have e : f.Interface = g.Interface := by rw [h] at hs; exact hs
    rw [convertField_of_ByteStringType f h, convertField_of_ByteStringType g (ht ▸ h), hk, e]
  · have e : f.Interface = g.Interface := by rw [h] at hs; exact hs
    rw [convertField_of_StringerType f h, convertField_of_StringerType g (ht ▸ h), hk, e]
  · have e : f.Interface = g.Interface := by rw [h] at hs; exact hs
    rw [convertField_of_AnyType f h, convertField_of_AnyType g (ht ▸ h), hk, e]
  · have e : f.Interface = g.Interface := by rw [usedSlot_default _ h] at hs; exact hs
    rw [convertField_of_default f h, convertField_of_default g (ht ▸ h), hk, e]

/-- C14, instance: two `StringType` fields with the same key and `String` slot that
differ in the `Integer` and `Interface` slots. -/
theorem convertField_reads_used_slot_witness :
    (Field.exampleFull.Type_ = Field.exampleBare.Type_ ∧
     Field.exampleFull.Key = Field.exampleBare.Key ∧
     Field.exampleFull.agreeOn Field.exampleBare (usedSlot Field.exampleFull.Type_)) ∧
    convertField Field.exampleFull = convertField Field.exampleBare :=
  ⟨⟨rfl, rfl, rfl⟩, convertField_reads_used_slot _ _ rfl rfl rfl⟩

/-! ## Error fields -/

/-- C15 (the key of an error field is ignored).  A field of kind `ErrorType` whose
`Interface` is nil or holds an error converts to the wrapped library's `Error` field of
that payload, whose key is the fixed "error" for a non-nil error; the result does not
depend on the field's `Key`. -/
theorem convertField_error_ignores_key {a : Arch} (f : Field a) (e : error a)
    (ht : f.Type_ = ErrorType) (hp : f.Interface = e.toIface) :
    convertField f = .ok (zap.Field.Error e) ∧
    (zap.Field.Error e).Key = (match e with | none => "" | some _ => "error") ∧
    ∀ key : string, convertField { f with Key := key } = convertField f := by
  have main : ∀ g : Field a, g.Type_ = ErrorType → g.Interface = e.toIface →
      convertField g = .ok (zap.Field.Error e) := by
    intro g hg hgp
    rw [convertField_of_ErrorType g hg, hgp]
    cases e with
    | none => simp [error.toIface]
    | some v =>
      have hne : (some v : error a) ≠ none := by simp
      have hi : error.toIface (some v) ≠ none := by simp [error.toIface]
      rw [if_neg hi, assertError_toIface _ hne]
      rfl
  refine ⟨main f ht hp, ?_, ?_⟩
  · cases e <;> rfl
  · intro key
    rw [main f ht hp]
    exact main _ ht hp

/-- C15, instance: an error field built by hand under the key "cause". -/
theorem convertField_error_ignores_key_witness :
    (Field.exampleError.Type_ = ErrorType ∧
      Field.exampleError.Interface = error.example.toIface) ∧
    (convertField Field.exampleError = .ok (zap.Field.Error error.example) ∧
     (zap.Field.Error error.example).Key
        = (match error.example with | none => "" | some _ => "error") ∧
     ∀ key : string,
       convertField { Field.exampleError with Key := key } = convertField Field.exampleError) :=
  ⟨⟨rfl, rfl⟩, convertField_error_ignores_key Field.exampleError error.example rfl rfl⟩

/-! ## Integer narrowing -/

/-- The number a narrowing conversion yields. -/
theorem toSint_val (w : Nat) (n : ℤ) :
    (toSint w n).val = (if n % (2 : ℤ) ^ w < (2 : ℤ) ^ (w - 1) then n % (2 : ℤ) ^ w
      else n % (2 : ℤ) ^ w - (2 : ℤ) ^ w) := rfl

/-- Narrowing keeps a number exactly when it lies in the signed range of the width. -/
theorem toSint_val_eq_iff (w : Nat) (n : ℤ) (hw : 0 < w) :
    (toSint w n).val = n ↔ -(2 : ℤ) ^ (w - 1) ≤ n ∧ n < (2 : ℤ) ^ (w - 1) :=
  ⟨fun h => h ▸ wrap_inRange w n, wrap_of_inRange w n hw⟩

/-- C16 (integer narrowing).  For a field of kind `Int32`, `Int16` or `Int8` with an
arbitrary `Integer` slot `n`, the conversion returns, and the converted value is `n`
reduced modulo `2^w` and read as a signed `w`-bit number; it equals `n` exactly when
`-2^(w-1) ≤ n < 2^(w-1)`.  Fields made by `Int32`, `Int16` and `Int8` convert back to
the value they were made from. -/
theorem convertField_narrowing {a : Arch} (key : string) (n : int64) (s : string)
    (x : iface a) :
    (∃ v : int32, convertField (⟨key, Int32Type, n, s, x⟩ : Field a) = .ok (zap.Field.Int32 key v) ∧
      v.val = (if n.val % (2 : ℤ) ^ 32 < (2 : ℤ) ^ 31 then n.val % (2 : ℤ) ^ 32
               else n.val % (2 : ℤ) ^ 32 - (2 : ℤ) ^ 32) ∧
      (v.val = n.val ↔ -(2 : ℤ) ^ 31 ≤ n.val ∧ n.val < (2 : ℤ) ^ 31)) ∧
    (∃ v : int16, convertField (⟨key, Int16Type, n, s, x⟩ : Field a) = .ok (zap.Field.Int16 key v) ∧
      v.val = (if n.val % (2 : ℤ) ^ 16 < (2 : ℤ) ^ 15 then n.val % (2 : ℤ) ^ 16
               else n.val % (2 : ℤ) ^ 16 - (2 : ℤ) ^ 16) ∧
      (v.val = n.val ↔ -(2 : ℤ) ^ 15 ≤ n.val ∧ n.val < (2 : ℤ) ^ 15)) ∧
    (∃ v : int8, convertField (⟨key, Int8Type, n, s, x⟩ : Field a) = .ok (zap.Field.Int8 key v) ∧
      v.val = (if n.val % (2 : ℤ) ^ 8 < (2 : ℤ) ^ 7 then n.val % (2 : ℤ) ^ 8
               else n.val % (2 : ℤ) ^ 8 - (2 : ℤ) ^ 8) ∧
      (v.val = n.val ↔ -(2 : ℤ) ^ 7 ≤ n.val ∧ n.val < (2 : ℤ) ^ 7)) ∧
    (∀ val : int32, convertField (Int32 key val : Field a) = .ok (zap.Field.Int32 key val)) ∧
    (∀ val : int16, convertField (Int16 key val : Field a) = .ok (zap.Field.Int16 key val)) ∧
    (∀ val : int8, convertField (Int8 key val : Field a) = .ok (zap.Field.Int8 key val)) := by
  refine ⟨⟨toSint 32 n.val, rfl, toSint_val 32 n.val, toSint_val_eq_iff 32 n.val (by decide)⟩,
    ⟨toSint 16 n.val, rfl, toSint_val 16 n.val, toSint_val_eq_iff 16 n.val (by decide)⟩,
    ⟨toSint 8 n.val, rfl, toSint_val 8 n.val, toSint_val_eq_iff 8 n.val (by decide)⟩,
    fun val => convertField_field (CtorCall.Int32 key val) (fun _ hc => by cases hc),
    fun val => convertField_field (CtorCall.Int16 key val) (fun _ hc => by cases hc),
    fun val => convertField_field (CtorCall.Int8 key val) (fun _ hc => by cases hc)⟩

end Log
